import Mathlib

/-!
Shallow embedding of the simulation core of the `streaming-demo` repository
(`src/data-generator/src/data_generators.py`): the sensor, production and
quality data generators.  Python floats are modelled as rationals, random
draws are explicit parameters constrained to the support of the distribution
they are drawn from, and `round(x, n)` is modelled as round-half-to-even on
rationals (Python 3 semantics).
-/

namespace StreamingDemo

/-- Round-half-to-even of a rational to an integer (Python 3 `round`). -/
def rhe (x : ℚ) : ℤ :=
  if x - (⌊x⌋ : ℚ) < 1/2 then ⌊x⌋
  else if 1/2 < x - (⌊x⌋ : ℚ) then ⌊x⌋ + 1
  else if ⌊x⌋ % 2 = 0 then ⌊x⌋ else ⌊x⌋ + 1

/-- `round(x, n)` from Python: round to `n` decimal places, ties to even. -/
def roundTo (n : ℕ) (x : ℚ) : ℚ :=
  (rhe (x * 10 ^ n) : ℚ) / 10 ^ n

/-! ## Data model (configuration and records) -/

/-- One entry of the equipment configuration list. -/
structure Equipment where
  equipment_id : String
  equipment_type : String
  max_temperature : ℚ
  max_pressure : ℚ
  max_speed : ℚ
deriving DecidableEq

/-- Per-signal simulation parameters for temperature / pressure / speed_rpm
(`variance`, `spike_probability`, `spike_magnitude` keys of `sensor_config`). -/
structure SignalConfig where
  variance : ℚ
  spike_probability : ℚ
  spike_magnitude : ℚ
deriving DecidableEq

/-- Vibration parameters: a base range plus noise/spike parameters. -/
structure VibrationConfig where
  base_range_lo : ℚ
  base_range_hi : ℚ
  variance : ℚ
  spike_probability : ℚ
  spike_magnitude : ℚ
deriving DecidableEq

/-- Efficiency / power parameters: only a base range and a variance are read
by the code (`_simulate_efficiency`, `_simulate_power_consumption`). -/
structure RangeConfig where
  base_range_lo : ℚ
  base_range_hi : ℚ
  variance : ℚ
deriving DecidableEq

/-- The `sensor_config` dictionary. -/
structure SensorConfig where
  temperature : SignalConfig
  pressure : SignalConfig
  vibration : VibrationConfig
  speed_rpm : SignalConfig
  efficiency : RangeConfig
  power_consumption : RangeConfig
deriving DecidableEq

/-- Per-equipment trend state (`self.equipment_state[equipment_id]`).
Timestamps are rationals (seconds since an arbitrary epoch). -/
structure TrendState where
  temperature_trend : ℚ
  pressure_trend : ℚ
  vibration_trend : ℚ
  efficiency_degradation : ℚ
  last_maintenance : ℚ
  status : String
deriving DecidableEq

/-- A generated sensor record (the dict built by `_generate_sensor_reading`). -/
structure SensorReading where
  timestamp : ℚ
  equipment_id : String
  sensor_type : String
  temperature : ℚ
  pressure : ℚ
  vibration : ℚ
  speed_rpm : ℚ
  power_consumption : ℚ
  efficiency_percent : ℚ
  status : String
deriving DecidableEq

/-! ## Random draws

Each Python random call is modelled as an explicit parameter.  A predicate
restricts every parameter to the support of the distribution it is drawn
from; Gaussian noise (`np.random.normal`) has full support and is
unconstrained. -/

/-- The pair of draws consumed by `_simulate_spike`: `random.random()` and
`random.choice([-1, 1])` (`true` ↦ `+1`, `false` ↦ `-1`). -/
structure SpikeDraw where
  r : ℚ
  dir : Bool
deriving DecidableEq

/-- All random draws consumed while producing one sensor reading. -/
structure SensorDraws where
  temp_noise : ℚ
  temp_spike : SpikeDraw
  press_noise : ℚ
  press_spike : SpikeDraw
  vib_base : ℚ
  vib_noise : ℚ
  vib_spike : SpikeDraw
  speed_var : ℚ
  speed_noise : ℚ
  speed_spike : SpikeDraw
  eff_base : ℚ
  eff_noise : ℚ
  pow_base : ℚ
  pow_noise : ℚ
  status_crit_choice : Bool
  status_warn_r : ℚ
  status_down_r : ℚ
  status_down_choice : Bool
  trend_dt : ℚ
  trend_dp : ℚ
  trend_dv : ℚ
  trend_de : ℚ
  reset_r : ℚ
deriving DecidableEq

/-- Support constraints of the draws of one sensor reading. -/
def ValidSensorDraws (cfg : SensorConfig) (d : SensorDraws) : Prop :=
  0 ≤ d.temp_spike.r ∧ d.temp_spike.r < 1 ∧
  0 ≤ d.press_spike.r ∧ d.press_spike.r < 1 ∧
  0 ≤ d.vib_spike.r ∧ d.vib_spike.r < 1 ∧
  0 ≤ d.speed_spike.r ∧ d.speed_spike.r < 1 ∧
  cfg.vibration.base_range_lo ≤ d.vib_base ∧ d.vib_base ≤ cfg.vibration.base_range_hi ∧
  8/10 ≤ d.speed_var ∧ d.speed_var ≤ 12/10 ∧
  cfg.efficiency.base_range_lo ≤ d.eff_base ∧ d.eff_base ≤ cfg.efficiency.base_range_hi ∧
  cfg.power_consumption.base_range_lo ≤ d.pow_base ∧
  d.pow_base ≤ cfg.power_consumption.base_range_hi ∧
  0 ≤ d.status_warn_r ∧ d.status_warn_r < 1 ∧
  0 ≤ d.status_down_r ∧ d.status_down_r < 1 ∧
  -(1/10) ≤ d.trend_dt ∧ d.trend_dt ≤ 1/10 ∧
  -(1/10) ≤ d.trend_dp ∧ d.trend_dp ≤ 1/10 ∧
  -(1/100) ≤ d.trend_dv ∧ d.trend_dv ≤ 1/100 ∧
  0 ≤ d.trend_de ∧ d.trend_de ≤ 1/1000 ∧
  0 ≤ d.reset_r ∧ d.reset_r < 1

/-! ## Sensor simulation (`SensorDataGenerator`) -/

/-- `BaseDataGenerator._add_noise`: the Gaussian draw is the parameter `nz`. -/
def add_noise (value : ℚ) (nz : ℚ) : ℚ := value + nz

/-- `BaseDataGenerator._simulate_spike`. -/
def simulate_spike (base_value : ℚ) (spike_prob spike_magnitude : ℚ)
    (d : SpikeDraw) : ℚ :=
  if d.r < spike_prob then
    base_value + (if d.dir then 1 else -1) * spike_magnitude
  else base_value

/-- `SensorDataGenerator._get_base_temperature`. -/
def get_base_temperature (t : String) : ℚ :=
  if t = "PRESS" then 45 else if t = "ROBOT" then 35
  else if t = "CONVEYOR" then 25 else if t = "WELDER" then 55
  else if t = "DRILL" then 40 else if t = "SCANNER" then 22 else 30

/-- `SensorDataGenerator._get_base_pressure`. -/
def get_base_pressure (t : String) : ℚ :=
  if t = "PRESS" then 80 else if t = "ROBOT" then 45
  else if t = "CONVEYOR" then 15 else if t = "WELDER" then 25
  else if t = "DRILL" then 60 else if t = "SCANNER" then 5 else 20

/-- `SensorDataGenerator._get_base_speed`. -/
def get_base_speed (t : String) : ℚ :=
  if t = "PRESS" then 800 else if t = "ROBOT" then 1500
  else if t = "CONVEYOR" then 300 else if t = "WELDER" then 600
  else if t = "DRILL" then 2000 else if t = "SCANNER" then 50 else 500

/-- `SensorDataGenerator._simulate_temperature`. -/
def simulate_temperature (cfg : SignalConfig) (base_temp max_temp : ℚ)
    (temperature_trend : ℚ) (nz : ℚ) (sp : SpikeDraw) : ℚ :=
  let temp := base_temp + temperature_trend
  let temp := add_noise temp nz
  let temp := simulate_spike temp cfg.spike_probability cfg.spike_magnitude sp
  max 15 (min (max_temp * (12/10)) temp)

/-- `SensorDataGenerator._simulate_pressure`. -/
def simulate_pressure (cfg : SignalConfig) (base_pressure max_pressure : ℚ)
    (pressure_trend : ℚ) (nz : ℚ) (sp : SpikeDraw) : ℚ :=
  let pressure := base_pressure + pressure_trend
  let pressure := add_noise pressure nz
  let pressure := simulate_spike pressure cfg.spike_probability cfg.spike_magnitude sp
  max 0 (min (max_pressure * (11/10)) pressure)

/-- `SensorDataGenerator._simulate_vibration`; `vb` is the
`random.uniform(base_range[0], base_range[1])` draw. -/
def simulate_vibration (cfg : VibrationConfig) (vibration_trend : ℚ)
    (vb : ℚ) (nz : ℚ) (sp : SpikeDraw) : ℚ :=
  let vibration := vb
  let vibration := vibration + vibration_trend
  let vibration := add_noise vibration nz
  let vibration := simulate_spike vibration cfg.spike_probability cfg.spike_magnitude sp
  max 0 vibration

/-- `SensorDataGenerator._simulate_speed`; `sv` is the
`random.uniform(0.8, 1.2)` draw. -/
def simulate_speed (cfg : SignalConfig) (base_speed max_speed : ℚ)
    (sv : ℚ) (nz : ℚ) (sp : SpikeDraw) : ℚ :=
  let speed := base_speed * sv
  let speed := add_noise speed nz
  let speed := simulate_spike speed cfg.spike_probability cfg.spike_magnitude sp
  max 0 (min max_speed speed)

/-- `SensorDataGenerator._simulate_efficiency`; `eb` is the
`random.uniform(base_range[0], base_range[1])` draw.  Note: the code applies
no spike to efficiency. -/
def simulate_efficiency (cfg : RangeConfig) (efficiency_degradation : ℚ)
    (eb : ℚ) (nz : ℚ) : ℚ :=
  let efficiency := eb
  let efficiency := efficiency - efficiency_degradation
  let efficiency := add_noise efficiency nz
  max 30 (min 100 efficiency)

/-- `SensorDataGenerator._simulate_power_consumption`; `pb` is the base draw. -/
def simulate_power_consumption (cfg : RangeConfig)
    (temperature speed efficiency : ℚ) (pb : ℚ) (nz : ℚ) : ℚ :=
  let base_power := pb
  let temp_factor := 1 + (temperature - 30) / 100
  let speed_factor := 1 + (speed - 500) / 2000
  let efficiency_factor := 2 - efficiency / 100
  let power := base_power * temp_factor * speed_factor * efficiency_factor
  let power := add_noise power nz
  max 1 power

/-- `SensorDataGenerator._determine_status`. -/
def determine_status (temperature pressure vibration max_temp max_pressure : ℚ)
    (crit_choice : Bool) (warn_r : ℚ) (down_r : ℚ) (down_choice : Bool) : String :=
  if temperature > max_temp * (95/100) ∨ pressure > max_pressure * (95/100) then
    if crit_choice then "ERROR" else "MAINTENANCE"
  else if (temperature > max_temp * (85/100) ∨ pressure > max_pressure * (85/100) ∨
      vibration > 7/10) ∧ warn_r < 1/10 then
    "MAINTENANCE"
  else if down_r < 5/1000 then
    if down_choice then "STOPPED" else "MAINTENANCE"
  else "RUNNING"

/-- `SensorDataGenerator._update_equipment_state`; `now` is the wall-clock
time of the call (`datetime.now()`). -/
def update_equipment_state (st : TrendState)
    (dt dp dv de reset_r : ℚ) (now : ℚ) : TrendState :=
  let st := { st with
    temperature_trend := st.temperature_trend + dt
    pressure_trend := st.pressure_trend + dp
    vibration_trend := st.vibration_trend + dv
    efficiency_degradation := st.efficiency_degradation + de }
  if reset_r < 1/1000 then
    { st with
      temperature_trend := 0
      pressure_trend := 0
      vibration_trend := 0
      efficiency_degradation := 0
      last_maintenance := now }
  else st

/-- `SensorDataGenerator._generate_sensor_reading`, given the equipment's
current trend state: returns the record and the updated trend state. -/
def generate_sensor_reading (cfg : SensorConfig) (eq : Equipment)
    (st : TrendState) (d : SensorDraws) (now : ℚ) : SensorReading × TrendState :=
  let base_temp := get_base_temperature eq.equipment_type
  let base_pressure := get_base_pressure eq.equipment_type
  let base_speed := get_base_speed eq.equipment_type
  let temperature := simulate_temperature cfg.temperature base_temp
    eq.max_temperature st.temperature_trend d.temp_noise d.temp_spike
  let pressure := simulate_pressure cfg.pressure base_pressure
    eq.max_pressure st.pressure_trend d.press_noise d.press_spike
  let vibration := simulate_vibration cfg.vibration st.vibration_trend
    d.vib_base d.vib_noise d.vib_spike
  let speed_rpm := simulate_speed cfg.speed_rpm base_speed eq.max_speed
    d.speed_var d.speed_noise d.speed_spike
  let efficiency := simulate_efficiency cfg.efficiency st.efficiency_degradation
    d.eff_base d.eff_noise
  let power_consumption := simulate_power_consumption cfg.power_consumption
    temperature speed_rpm efficiency d.pow_base d.pow_noise
  let status := determine_status temperature pressure vibration
    eq.max_temperature eq.max_pressure d.status_crit_choice d.status_warn_r
    d.status_down_r d.status_down_choice
  let st' := update_equipment_state st d.trend_dt d.trend_dp d.trend_dv
    d.trend_de d.reset_r now
  (⟨now, eq.equipment_id, eq.equipment_type ++ "_SENSOR",
    roundTo 2 temperature, roundTo 2 pressure, roundTo 3 vibration,
    roundTo 1 speed_rpm, roundTo 2 power_consumption, roundTo 1 efficiency,
    status⟩, st')

/-! ## Equipment state table and sensor batch generation -/

/-- `SensorDataGenerator._initialize_equipment_state`: one entry per
configured equipment, trend fields zero, status RUNNING, `last_maintenance`
a random 1–30 days (here: `initDays i` days for the `i`-th equipment) before
`now`. -/
def initialize_equipment_state : List Equipment → (ℕ → ℕ) → ℚ →
    List (String × TrendState)
  | [], _, _ => []
  | e :: es, initDays, now =>
      (e.equipment_id, ⟨0, 0, 0, 0, now - (initDays 0 : ℚ), "RUNNING"⟩) ::
        initialize_equipment_state es (fun i => initDays (i + 1)) now

/-- Dictionary read `self.equipment_state[equipment_id]`. -/
def lookup_state (tbl : List (String × TrendState)) (id : String) :
    Option TrendState :=
  (tbl.find? (fun p => p.1 == id)).map Prod.snd

/-- In-place mutation of the entry of `equipment_id` (a Python dict update at
an existing key: no key is added or removed). -/
def update_state_table (tbl : List (String × TrendState)) (id : String)
    (st : TrendState) : List (String × TrendState) :=
  tbl.map (fun p => if p.1 = id then (p.1, st) else p)

/-- The per-record inputs of one iteration of
`SensorDataGenerator.generate_batch`: the `random.choice` over the equipment
list (as an index), the reading's draws, and the wall-clock time. -/
structure SensorStep where
  choice : ℕ
  draws : SensorDraws
  now : ℚ

/-- One iteration of the loop in `SensorDataGenerator.generate_batch`:
choose an equipment, generate a reading, store the updated trend state. -/
def gen_step (cfg : SensorConfig) (eqs : List Equipment)
    (tbl : List (String × TrendState)) (s : SensorStep) :
    SensorReading × List (String × TrendState) :=
  let eq := eqs.getD (s.choice % eqs.length) ⟨"", "", 0, 0, 0⟩
  let st := (lookup_state tbl eq.equipment_id).getD ⟨0, 0, 0, 0, 0, "RUNNING"⟩
  let p := generate_sensor_reading cfg eq st s.draws s.now
  (p.1, update_state_table tbl eq.equipment_id p.2)

/-- `SensorDataGenerator.generate_batch`: `batch_size` iterations appending
one record each, threading the equipment state table. -/
def sensor_generate_batch (cfg : SensorConfig) (eqs : List Equipment) :
    ℕ → List (String × TrendState) → (ℕ → SensorStep) → List SensorReading
  | 0, _, _ => []
  | n + 1, tbl, tape =>
      (gen_step cfg eqs tbl (tape 0)).1 ::
        sensor_generate_batch cfg eqs n (gen_step cfg eqs tbl (tape 0)).2
          (fun i => tape (i + 1))

/-- The `i`-th record generated by the batch loop (state threaded through
the first `i` iterations). -/
def sensor_record_at (cfg : SensorConfig) (eqs : List Equipment) :
    List (String × TrendState) → (ℕ → SensorStep) → ℕ → SensorReading
  | tbl, tape, 0 => (gen_step cfg eqs tbl (tape 0)).1
  | tbl, tape, i + 1 =>
      sensor_record_at cfg eqs (gen_step cfg eqs tbl (tape 0)).2
        (fun j => tape (j + 1)) i

/-! ## Production generator (`ProductionDataGenerator`) -/

/-- A production-line configuration entry (only `line_id` is read). -/
structure ProductionLine where
  line_id : String
deriving DecidableEq

/-- A product configuration entry (only `product_id` is read). -/
structure Product where
  product_id : String
deriving DecidableEq

/-- An operator configuration entry. -/
structure Operator where
  operator_id : String
  shift : String
deriving DecidableEq

/-- An inspector configuration entry (only `inspector_id` is read). -/
structure Inspector where
  inspector_id : String
deriving DecidableEq

/-- Production-line id of an equipment (`equipment['production_line_id']`,
read only by the production generator; kept separate from `Equipment` so the
sensor model matches the keys the sensor code reads). -/
structure EquipmentLineRef where
  production_line_id : String
deriving DecidableEq

/-- `production_config['cycle_time']`. -/
structure CycleTimeConfig where
  base_seconds : ℚ
  variance : ℚ
  equipment_factors : List (String × ℚ)
deriving DecidableEq

/-- `production_config['production_volume']`. -/
structure VolumeConfig where
  units_lo : ℕ
  units_hi : ℕ
  reject_probability : ℚ
deriving DecidableEq

/-- `production_config['downtime']`. -/
structure DowntimeConfig where
  average_duration_minutes : ℚ
  max_duration_minutes : ℚ
deriving DecidableEq

/-- The `production_config` dictionary. -/
structure ProductionConfig where
  cycle_time : CycleTimeConfig
  production_volume : VolumeConfig
  downtime : DowntimeConfig
deriving DecidableEq

/-- A generated production record. -/
structure ProductionEvent where
  timestamp : ℚ
  equipment_id : String
  line_id : String
  product_id : String
  event_type : String
  units_produced : ℕ
  planned_units : ℕ
  cycle_time_seconds : ℚ
  downtime_minutes : ℚ
  reject_count : ℕ
  operator_id : String
  batch_id : String
deriving DecidableEq

/-- Random draws consumed while producing one production event (the
per-unit Bernoulli draws of `_generate_reject_count` are the stream
`reject_rs`). -/
structure ProdDraws where
  eq_c : ℕ
  prod_c : ℕ
  op_c : ℕ
  event_c : ℕ
  cycle_noise : ℚ
  units_draw : ℕ
  extra_draw : ℕ
  reject_rs : ℕ → ℚ
  planned_nonprod : ℕ
  exp_draw : ℚ
  batch_rand : ℕ

/-- Support constraints of the draws of one production event. -/
def ValidProdDraws (cfg : ProductionConfig) (d : ProdDraws) : Prop :=
  cfg.production_volume.units_lo ≤ d.units_draw ∧
  d.units_draw ≤ cfg.production_volume.units_hi ∧
  d.extra_draw ≤ 2 ∧
  1 ≤ d.planned_nonprod ∧ d.planned_nonprod ≤ 10 ∧
  0 ≤ d.exp_draw ∧
  (∀ i, 0 ≤ d.reject_rs i ∧ d.reject_rs i < 1)

/-- `BaseDataGenerator._get_current_shift` (wall-clock hour). -/
def get_current_shift (hour : ℕ) : String :=
  if 6 ≤ hour ∧ hour < 14 then "DAY_SHIFT"
  else if 14 ≤ hour ∧ hour < 22 then "AFTERNOON_SHIFT"
  else "NIGHT_SHIFT"

/-- `BaseDataGenerator._generate_batch_id`: `BATCH_<date>_<4-digit random>`. -/
def generate_batch_id (dateStr : String) (brand : ℕ) : String :=
  "BATCH_" ++ dateStr ++ "_" ++ toString brand

/-- `ProductionDataGenerator._get_line_for_equipment` (first match by line
id, falling back to the first configured line). -/
def get_line_for_equipment (lines : List ProductionLine)
    (ref : EquipmentLineRef) : ProductionLine :=
  match lines.find? (fun l => l.line_id == ref.production_line_id) with
  | some l => l
  | none => lines.getD 0 ⟨""⟩

/-- `ProductionDataGenerator._get_current_operator`. -/
def get_current_operator (ops : List Operator) (hour : ℕ) (c : ℕ) : Operator :=
  let shift_ops := ops.filter (fun o => o.shift == get_current_shift hour)
  if shift_ops.isEmpty then ops.getD 0 ⟨"", ""⟩
  else shift_ops.getD (c % shift_ops.length) ⟨"", ""⟩

/-- The weighted event-type list of
`ProductionDataGenerator._determine_event_type`. -/
def event_types : List String :=
  List.replicate 85 "PRODUCTION" ++ List.replicate 5 "CHANGEOVER" ++
  List.replicate 3 "MAINTENANCE" ++ List.replicate 2 "PLANNED_MAINTENANCE" ++
  List.replicate 3 "QUALITY_CHECK" ++ List.replicate 2 "SETUP"

/-- `ProductionDataGenerator._determine_event_type` (`random.choice` as an
index into the weighted list). -/
def determine_event_type (c : ℕ) : String :=
  event_types.getD (c % event_types.length) "PRODUCTION"

/-- `ProductionDataGenerator._generate_cycle_time`. -/
def generate_cycle_time (equipment_type : String) (cfg : ProductionConfig)
    (nz : ℚ) : ℚ :=
  let factor :=
    match cfg.cycle_time.equipment_factors.find? (fun p => p.1 == equipment_type) with
    | some p => p.2
    | none => 1
  let cycle_time := cfg.cycle_time.base_seconds * factor
  let cycle_time := add_noise cycle_time nz
  max 5 cycle_time

/-- `ProductionDataGenerator._generate_reject_count`: one Bernoulli trial per
produced unit. -/
def generate_reject_count (units_produced : ℕ) (reject_prob : ℚ)
    (rs : ℕ → ℚ) : ℕ :=
  (List.range units_produced).countP (fun i => rs i < reject_prob)

/-- `ProductionDataGenerator._generate_downtime`: exponential draw capped at
the configured maximum. -/
def generate_downtime (cfg : ProductionConfig) (exp_draw : ℚ) : ℚ :=
  min exp_draw cfg.downtime.max_duration_minutes

/-- `ProductionDataGenerator._generate_production_event`. -/
def generate_production_event (cfg : ProductionConfig) (eq : Equipment)
    (line : ProductionLine) (product : Product) (operator : Operator)
    (d : ProdDraws) (now : ℚ) (dateStr : String) : ProductionEvent :=
  let event_type := determine_event_type d.event_c
  let cycle_time := generate_cycle_time eq.equipment_type cfg d.cycle_noise
  let q :=
    if event_type = "PRODUCTION" then
      let units_produced := d.units_draw
      let planned_units := units_produced + d.extra_draw
      let reject_count := generate_reject_count units_produced
        cfg.production_volume.reject_probability d.reject_rs
      (units_produced, planned_units, reject_count, (0 : ℚ))
    else
      ((0 : ℕ), d.planned_nonprod, (0 : ℕ), generate_downtime cfg d.exp_draw)
  ⟨now, eq.equipment_id, line.line_id, product.product_id, event_type,
    q.1, q.2.1, roundTo 1 cycle_time, roundTo 1 q.2.2.2, q.2.2.1,
    operator.operator_id, generate_batch_id dateStr d.batch_rand⟩

/-- Per-record inputs of one iteration of
`ProductionDataGenerator.generate_batch`. -/
structure ProdStep where
  draws : ProdDraws
  now : ℚ
  dateStr : String
  hour : ℕ

/-- One iteration of the loop in `ProductionDataGenerator.generate_batch`. -/
def gen_production_one (cfg : ProductionConfig) (eqs : List Equipment)
    (refs : ℕ → EquipmentLineRef) (lines : List ProductionLine)
    (products : List Product) (ops : List Operator) (s : ProdStep) :
    ProductionEvent :=
  let i := s.draws.eq_c % eqs.length
  let eq := eqs.getD i ⟨"", "", 0, 0, 0⟩
  let line := get_line_for_equipment lines (refs i)
  let product := products.getD (s.draws.prod_c % products.length) ⟨""⟩
  let operator := get_current_operator ops s.hour s.draws.op_c
  generate_production_event cfg eq line product operator s.draws s.now s.dateStr

/-- `ProductionDataGenerator.generate_batch`. -/
def production_generate_batch (cfg : ProductionConfig) (eqs : List Equipment)
    (refs : ℕ → EquipmentLineRef) (lines : List ProductionLine)
    (products : List Product) (ops : List Operator) :
    ℕ → (ℕ → ProdStep) → List ProductionEvent
  | 0, _ => []
  | n + 1, tape =>
      gen_production_one cfg eqs refs lines products ops (tape 0) ::
        production_generate_batch cfg eqs refs lines products ops n
          (fun i => tape (i + 1))

/-! ## Quality generator (`QualityDataGenerator`) -/

/-- One quality-test definition.  `precision_decimals` models
`len(str(precision).split('.')[-1])`, the number of decimal places implied
by the configured `measurement_precision`; as the length of a non-empty
string it is always at least 1. -/
structure QualityTest where
  test_type : String
  spec_lo : ℚ
  spec_hi : ℚ
  precision_decimals : ℕ
  failure_probability : ℚ
deriving DecidableEq

/-- A generated quality record. -/
structure QualityResult where
  timestamp : ℚ
  equipment_id : String
  product_id : String
  test_type : String
  measurement_value : ℚ
  specification_min : ℚ
  specification_max : ℚ
  is_within_spec : Bool
  defect_type : Option String
  inspector_id : String
  batch_id : String
  sample_size : ℕ
deriving DecidableEq

/-- Random draws consumed while producing one quality record. -/
structure QualityDraws where
  prod_c : ℕ
  eq_c : ℕ
  insp_c : ℕ
  test_c : ℕ
  fail_r : ℚ
  pass_meas : ℚ
  side_r : ℚ
  off : ℚ
  defect_c : ℕ
  batch_rand : ℕ
  sample_size_draw : ℕ
deriving DecidableEq

/-- Support constraints of the draws of one quality record. -/
def ValidQualityDraws (test : QualityTest) (d : QualityDraws) : Prop :=
  0 ≤ d.fail_r ∧ d.fail_r < 1 ∧
  test.spec_lo ≤ d.pass_meas ∧ d.pass_meas ≤ test.spec_hi ∧
  0 ≤ d.side_r ∧ d.side_r < 1 ∧
  1/10 ≤ d.off ∧ d.off ≤ 2 ∧
  1 ≤ d.sample_size_draw ∧ d.sample_size_draw ≤ 5

/-- `QualityDataGenerator._generate_quality_test`. -/
def generate_quality_test (defect_types : List String) (product : Product)
    (eq : Equipment) (inspector : Inspector) (test : QualityTest)
    (d : QualityDraws) (now : ℚ) (dateStr : String) : QualityResult :=
  let test_passes : Bool := decide (d.fail_r > test.failure_probability)
  let p :=
    if test_passes then (d.pass_meas, (none : Option String))
    else
      let m := if d.side_r < 1/2 then test.spec_lo - d.off else test.spec_hi + d.off
      (m, some (defect_types.getD (d.defect_c % defect_types.length) ""))
  let measurement := roundTo test.precision_decimals p.1
  ⟨now, eq.equipment_id, product.product_id, test.test_type, measurement,
    test.spec_lo, test.spec_hi, test_passes, p.2, inspector.inspector_id,
    generate_batch_id dateStr d.batch_rand, d.sample_size_draw⟩

/-- Per-record inputs of one iteration of
`QualityDataGenerator.generate_batch`. -/
structure QualityStep where
  draws : QualityDraws
  now : ℚ
  dateStr : String

/-- One iteration of the loop in `QualityDataGenerator.generate_batch`. -/
def gen_quality_one (defect_types : List String) (eqs : List Equipment)
    (products : List Product) (inspectors : List Inspector)
    (tests : List QualityTest) (s : QualityStep) : QualityResult :=
  let product := products.getD (s.draws.prod_c % products.length) ⟨""⟩
  let eq := eqs.getD (s.draws.eq_c % eqs.length) ⟨"", "", 0, 0, 0⟩
  let inspector := inspectors.getD (s.draws.insp_c % inspectors.length) ⟨""⟩
  let test := tests.getD (s.draws.test_c % tests.length) ⟨"", 0, 0, 1, 0⟩
  generate_quality_test defect_types product eq inspector test s.draws
    s.now s.dateStr

/-- `QualityDataGenerator.generate_batch`. -/
def quality_generate_batch (defect_types : List String) (eqs : List Equipment)
    (products : List Product) (inspectors : List Inspector)
    (tests : List QualityTest) :
    ℕ → (ℕ → QualityStep) → List QualityResult
  | 0, _ => []
  | n + 1, tape =>
      gen_quality_one defect_types eqs products inspectors tests (tape 0) ::
        quality_generate_batch defect_types eqs products inspectors tests n
          (fun i => tape (i + 1))

/-! ## Definitions written from the claims (for refinement comparisons) -/

/-- The status rule as the specification words it: the 0.5% random-stop draw
is taken "only when no warning condition held".  (The code instead falls
through to that draw whenever neither the critical rule nor the 10%
warning-maintenance draw produced a status.) -/
def determine_status_claim
    (temperature pressure vibration max_temp max_pressure : ℚ)
    (crit_choice : Bool) (warn_r : ℚ) (down_r : ℚ) (down_choice : Bool) :
    String :=
  if temperature > max_temp * (95/100) ∨ pressure > max_pressure * (95/100) then
    if crit_choice then "ERROR" else "MAINTENANCE"
  else if temperature > max_temp * (85/100) ∨ pressure > max_pressure * (85/100) ∨
      vibration > 7/10 then
    if warn_r < 1/10 then "MAINTENANCE" else "RUNNING"
  else if down_r < 5/1000 then
    if down_choice then "STOPPED" else "MAINTENANCE"
  else "RUNNING"

/-- Efficiency simulation as the claim words it: after the Gaussian noise an
occasional spike of ± the configured magnitude is added before clamping.
(The code applies no spike to efficiency.) -/
def simulate_efficiency_with_spike (spike_probability spike_magnitude : ℚ)
    (efficiency_degradation : ℚ) (eb : ℚ) (nz : ℚ) (sp : SpikeDraw) : ℚ :=
  let efficiency := eb
  let efficiency := efficiency - efficiency_degradation
  let efficiency := add_noise efficiency nz
  let efficiency := simulate_spike efficiency spike_probability spike_magnitude sp
  max 30 (min 100 efficiency)

/-- One full run of the determinism scenario of the specification: construct
a generator (which initializes the equipment state table) and produce a
single reading, all at wall-clock time `t`.  With a fixed seed the random
draws (`initDays`, `choice`, `d`) of two runs coincide; the wall clock `t`
does not come from the seeded generators. -/
def sensor_run (cfg : SensorConfig) (eqs : List Equipment)
    (initDays : ℕ → ℕ) (choice : ℕ) (d : SensorDraws) (t : ℚ) : SensorReading :=
  (gen_step cfg eqs (initialize_equipment_state eqs initDays t)
    ⟨choice, d, t⟩).1

/-! ## Concrete fixtures used by witnesses and counterexamples -/

/-- An all-zero sensor parameter set. -/
def cfgZero : SensorConfig :=
  ⟨⟨0, 0, 0⟩, ⟨0, 0, 0⟩, ⟨0, 0, 0, 0, 0⟩, ⟨0, 0, 0⟩, ⟨50, 100, 0⟩, ⟨10, 20, 0⟩⟩

/-- A sensor parameter set with firing spikes. -/
def cfgSpike : SensorConfig :=
  ⟨⟨0, 1/2, 10⟩, ⟨0, 1/2, 10⟩, ⟨0, 1, 0, 1/2, 1⟩, ⟨0, 1/2, 100⟩,
    ⟨50, 100, 0⟩, ⟨10, 20, 0⟩⟩

/-- The equipment of the determinism scenario of the specification. -/
def eqEX : Equipment := ⟨"EQ1", "PRESS", 100, 120, 1000⟩

/-- An equipment whose temperature cap `1.2 × 100.005 = 120.006` is not
representable at two decimal places. -/
def eqCex : Equipment := ⟨"EQ1", "PRESS", 20001/200, 120, 1000⟩

/-- A second equipment, used to observe the frame property. -/
def eqB : Equipment := ⟨"EQ2", "ROBOT", 90, 80, 500⟩

/-- The all-zero trend state. -/
def stZero : TrendState := ⟨0, 0, 0, 0, 0, "RUNNING"⟩

/-- All-zero draws for one sensor reading. -/
def dZero : SensorDraws :=
  ⟨0, ⟨0, false⟩, 0, ⟨0, false⟩, 0, 0, ⟨0, false⟩, 1, 0, ⟨0, false⟩,
    60, 0, 10, 0, false, 1/2, 1/2, false, 0, 0, 0, 0, 1/2⟩

/-- Draws with an enormous temperature noise value (Gaussian noise has full
support, so this is a possible draw for any configured variance). -/
def dHot : SensorDraws := { dZero with temp_noise := 10000 }

/-- A constant 5-day draw for the initial `last_maintenance` offsets. -/
def initDays5 : ℕ → ℕ := fun _ => 5

/-- A constant sensor-step tape. -/
def stape0 : ℕ → SensorStep := fun _ => ⟨0, dZero, 0⟩

/-- A small production configuration. -/
def prodCfg0 : ProductionConfig :=
  ⟨⟨30, 0, [("PRESS", 1)]⟩, ⟨1, 5, 1/10⟩, ⟨15, 120⟩⟩

/-- A production configuration whose downtime cap `10.06` minutes is not
representable at one decimal place. -/
def prodCfgCex : ProductionConfig :=
  ⟨⟨30, 0, [("PRESS", 1)]⟩, ⟨1, 5, 1/10⟩, ⟨5, 1006/100⟩⟩

/-- Reference data fixtures. -/
def lines0 : List ProductionLine := [⟨"L1"⟩]

/-- A single-product list. -/
def products0 : List Product := [⟨"P1"⟩]

/-- A single-operator list. -/
def ops0 : List Operator := [⟨"OP1", "DAY_SHIFT"⟩]

/-- A single-inspector list. -/
def inspectors0 : List Inspector := [⟨"I1"⟩]

/-- A defect-type list. -/
def defects0 : List String := ["SCRATCH"]

/-- Line references of the equipment list. -/
def refs0 : ℕ → EquipmentLineRef := fun _ => ⟨"L1"⟩

/-- Draws for a PRODUCTION event: event index 0, three units, one extra
planned unit. -/
def pdProd : ProdDraws := ⟨0, 0, 0, 0, 0, 3, 1, fun _ => 1/2, 1, 0, 1234⟩

/-- Draws for a non-PRODUCTION event: event index 85 (CHANGEOVER) and an
exponential downtime draw of 20 minutes. -/
def pdNonProd : ProdDraws := ⟨0, 0, 0, 85, 0, 3, 1, fun _ => 1/2, 4, 20, 1234⟩

/-- A constant production-step tape. -/
def ptape0 : ℕ → ProdStep := fun _ => ⟨pdProd, 0, "20240101", 10⟩

/-- A quality test whose upper bound `0.26` is not representable at the
one-decimal measurement precision. -/
def testCex : QualityTest := ⟨"DIMENSION", 0, 13/50, 1, 1/10⟩

/-- Draws of a passing quality test whose uniform in-spec draw lands on the
upper specification bound. -/
def qdPass : QualityDraws := ⟨0, 0, 0, 0, 9/10, 13/50, 0, 1/10, 0, 1234, 1⟩

/-- Draws of a failing quality test (low side). -/
def qdFail : QualityDraws := ⟨0, 0, 0, 0, 0, 13/50, 0, 1/10, 0, 1234, 1⟩

/-- A constant quality-step tape. -/
def qtape0 : ℕ → QualityStep := fun _ => ⟨qdPass, 0, "20240101"⟩

/-! ## Properties of the rounding model -/

theorem floor_le_rhe (x : ℚ) : ⌊x⌋ ≤ rhe x := by
  unfold rhe
  split_ifs <;> omega

theorem rhe_le_floor_add_one (x : ℚ) : rhe x ≤ ⌊x⌋ + 1 := by
  unfold rhe
  split_ifs <;> omega

theorem le_rhe_of_int_le (k : ℤ) (x : ℚ) (h : (k : ℚ) ≤ x) : k ≤ rhe x := by
  have h1 : k ≤ ⌊x⌋ := Int.le_floor.mpr h
  exact le_trans h1 (floor_le_rhe x)

theorem rhe_intCast (k : ℤ) : rhe (k : ℚ) = k := by
  unfold rhe
  rw [Int.floor_intCast]
  norm_num

theorem rhe_le_of_le_int (k : ℤ) (x : ℚ) (h : x ≤ (k : ℚ)) : rhe x ≤ k := by
  rcases lt_or_eq_of_le h with hlt | heq
  · have hk : ⌊x⌋ < k := Int.floor_lt.mpr (by exact_mod_cast hlt)
    exact le_trans (rhe_le_floor_add_one x) (by omega)
  · rw [heq, rhe_intCast]

theorem rhe_le_add_half (x : ℚ) : (rhe x : ℚ) ≤ x + 1/2 := by
  have hf : (⌊x⌋ : ℚ) ≤ x := Int.floor_le x
  have hf2 : x < (⌊x⌋ : ℚ) + 1 := Int.lt_floor_add_one x
  unfold rhe
  split_ifs with h1 h2 h3 <;> push_cast <;> linarith

theorem sub_half_le_rhe (x : ℚ) : x - 1/2 ≤ (rhe x : ℚ) := by
  have hf : (⌊x⌋ : ℚ) ≤ x := Int.floor_le x
  have hf2 : x < (⌊x⌋ : ℚ) + 1 := Int.lt_floor_add_one x
  unfold rhe
  split_ifs with h1 h2 h3 <;> push_cast <;> linarith

theorem roundTo_le_int (n : ℕ) (x : ℚ) (k : ℤ)
    (h : x * 10 ^ n ≤ (k : ℚ)) : roundTo n x ≤ (k : ℚ) / 10 ^ n := by
  unfold roundTo
  have hp : (0:ℚ) < 10 ^ n := by positivity
  have := rhe_le_of_le_int k (x * 10 ^ n) h
  exact div_le_div_of_nonneg_right (by exact_mod_cast this) hp.le

theorem int_le_roundTo (n : ℕ) (x : ℚ) (k : ℤ)
    (h : (k : ℚ) ≤ x * 10 ^ n) : (k : ℚ) / 10 ^ n ≤ roundTo n x := by
  unfold roundTo
  have hp : (0:ℚ) < 10 ^ n := by positivity
  have := le_rhe_of_int_le k (x * 10 ^ n) h
  exact div_le_div_of_nonneg_right (by exact_mod_cast this) hp.le

theorem roundTo_le_add_half_ulp (n : ℕ) (x : ℚ) :
    roundTo n x ≤ x + 1 / (2 * 10 ^ n) := by
  unfold roundTo
  have hp : (0:ℚ) < 10 ^ n := by positivity
  have h := rhe_le_add_half (x * 10 ^ n)
  have h2 : (rhe (x * 10 ^ n) : ℚ) / 10 ^ n ≤ (x * 10 ^ n + 1/2) / 10 ^ n :=
    div_le_div_of_nonneg_right h hp.le
  calc (rhe (x * 10 ^ n) : ℚ) / 10 ^ n ≤ (x * 10 ^ n + 1/2) / 10 ^ n := h2
    _ = x + 1 / (2 * 10 ^ n) := by field_simp; ring

theorem sub_half_ulp_le_roundTo (n : ℕ) (x : ℚ) :
    x - 1 / (2 * 10 ^ n) ≤ roundTo n x := by
  unfold roundTo
  have hp : (0:ℚ) < 10 ^ n := by positivity
  have h := sub_half_le_rhe (x * 10 ^ n)
  have h2 : (x * 10 ^ n - 1/2) / 10 ^ n ≤ (rhe (x * 10 ^ n) : ℚ) / 10 ^ n :=
    div_le_div_of_nonneg_right h hp.le
  calc x - 1 / (2 * 10 ^ n) = (x * 10 ^ n - 1/2) / 10 ^ n := by field_simp; ring
    _ ≤ (rhe (x * 10 ^ n) : ℚ) / 10 ^ n := h2

theorem roundTo_le_of_le (n : ℕ) (x b : ℚ) (h : x ≤ b) :
    roundTo n x ≤ b + 1 / (2 * 10 ^ n) :=
  le_trans (roundTo_le_add_half_ulp n x) (by linarith)

theorem roundTo_nonneg (n : ℕ) (x : ℚ) (h : 0 ≤ x) : 0 ≤ roundTo n x := by
  have h2 := int_le_roundTo n x 0
    (by push_cast; exact mul_nonneg h (by positivity))
  simpa using h2

theorem roundTo2_ge_fifteen (x : ℚ) (h : 15 ≤ x) : 15 ≤ roundTo 2 x := by
  have h2 := int_le_roundTo 2 x 1500 (by push_cast; linarith)
  norm_num at h2
  exact h2

theorem roundTo1_ge_thirty (x : ℚ) (h : 30 ≤ x) : 30 ≤ roundTo 1 x := by
  have h2 := int_le_roundTo 1 x 300 (by push_cast; linarith)
  norm_num at h2
  exact h2

theorem roundTo1_le_hundred (x : ℚ) (h : x ≤ 100) : roundTo 1 x ≤ 100 := by
  have h2 := roundTo_le_int 1 x 1000 (by push_cast; linarith)
  norm_num at h2
  exact h2

theorem rhe_eq_low (x : ℚ) (k : ℤ) (h1 : (k : ℚ) ≤ x) (h3 : x - k < 1/2) :
    rhe x = k := by
  have hf : ⌊x⌋ = k := Int.floor_eq_iff.mpr ⟨h1, by push_cast; linarith⟩
  unfold rhe
  rw [hf, if_pos h3]

theorem rhe_eq_high (x : ℚ) (k : ℤ) (h2 : x < (k : ℚ) + 1) (h3 : 1/2 < x - k) :
    rhe x = k + 1 := by
  have hf : ⌊x⌋ = k := Int.floor_eq_iff.mpr ⟨by linarith, by push_cast; linarith⟩
  unfold rhe
  rw [hf, if_neg (by linarith), if_pos h3]

theorem roundTo_zero (n : ℕ) : roundTo n 0 = 0 := by
  have h : rhe (0 * 10 ^ n) = 0 := by
    norm_num
    unfold rhe
    norm_num
  unfold roundTo
  rw [h]
  norm_num

/-! ## Clamp bounds of the individual sensor signals -/

theorem simulate_temperature_lb (cfg : SignalConfig) (bt mt tt nz : ℚ)
    (sp : SpikeDraw) : 15 ≤ simulate_temperature cfg bt mt tt nz sp := by
  unfold simulate_temperature
  exact le_max_left _ _

theorem simulate_temperature_ub (cfg : SignalConfig) (bt mt tt nz : ℚ)
    (sp : SpikeDraw) (h : 15 ≤ mt * (12/10)) :
    simulate_temperature cfg bt mt tt nz sp ≤ mt * (12/10) := by
  unfold simulate_temperature
  exact max_le h (min_le_left _ _)

theorem simulate_pressure_lb (cfg : SignalConfig) (bp mp pt nz : ℚ)
    (sp : SpikeDraw) : 0 ≤ simulate_pressure cfg bp mp pt nz sp := by
  unfold simulate_pressure
  exact le_max_left _ _

theorem simulate_pressure_ub (cfg : SignalConfig) (bp mp pt nz : ℚ)
    (sp : SpikeDraw) (h : 0 ≤ mp) :
    simulate_pressure cfg bp mp pt nz sp ≤ mp * (11/10) := by
  unfold simulate_pressure
  exact max_le (by linarith) (min_le_left _ _)

theorem simulate_vibration_lb (cfg : VibrationConfig) (vt vb nz : ℚ)
    (sp : SpikeDraw) : 0 ≤ simulate_vibration cfg vt vb nz sp := by
  unfold simulate_vibration
  exact le_max_left _ _

theorem simulate_speed_lb (cfg : SignalConfig) (bs ms sv nz : ℚ)
    (sp : SpikeDraw) : 0 ≤ simulate_speed cfg bs ms sv nz sp := by
  unfold simulate_speed
  exact le_max_left _ _

theorem simulate_speed_ub (cfg : SignalConfig) (bs ms sv nz : ℚ)
    (sp : SpikeDraw) (h : 0 ≤ ms) :
    simulate_speed cfg bs ms sv nz sp ≤ ms := by
  unfold simulate_speed
  exact max_le h (min_le_left _ _)

theorem simulate_efficiency_lb (cfg : RangeConfig) (deg eb nz : ℚ) :
    30 ≤ simulate_efficiency cfg deg eb nz := by
  unfold simulate_efficiency
  exact le_max_left _ _

theorem simulate_efficiency_ub (cfg : RangeConfig) (deg eb nz : ℚ) :
    simulate_efficiency cfg deg eb nz ≤ 100 := by
  unfold simulate_efficiency
  exact max_le (by norm_num) (min_le_left _ _)

/-! ## C1 -/

/-- C1 (amended): for every sensor reading, provided each clamp interval is
nonempty (`15 ≤ 1.2·max_temperature`, `0 ≤ max_pressure`, `0 ≤ max_speed`),
the rounded record fields satisfy: temperature in
`[15, 1.2·max_temperature + 1/200]`, pressure in
`[0, 1.1·max_pressure + 1/200]`, speed in `[0, max_speed + 1/20]`,
vibration ≥ 0 and efficiency in `[30, 100]`.  The lower bounds and the
efficiency bounds are exact; rounding after clamping can exceed the upper
temperature / pressure / speed caps by up to half a rounding unit. -/
theorem C1_sensor_reading_bounds (cfg : SensorConfig) (eq : Equipment)
    (st : TrendState) (d : SensorDraws) (now : ℚ)
    (ht : 15 ≤ eq.max_temperature * (12/10))
    (hp : 0 ≤ eq.max_pressure) (hs : 0 ≤ eq.max_speed) :
    15 ≤ ((generate_sensor_reading cfg eq st d now).1).temperature ∧
    ((generate_sensor_reading cfg eq st d now).1).temperature ≤
      eq.max_temperature * (12/10) + 1/200 ∧
    0 ≤ ((generate_sensor_reading cfg eq st d now).1).pressure ∧
    ((generate_sensor_reading cfg eq st d now).1).pressure ≤
      eq.max_pressure * (11/10) + 1/200 ∧
    0 ≤ ((generate_sensor_reading cfg eq st d now).1).speed_rpm ∧
    ((generate_sensor_reading cfg eq st d now).1).speed_rpm ≤ eq.max_speed + 1/20 ∧
    0 ≤ ((generate_sensor_reading cfg eq st d now).1).vibration ∧
    30 ≤ ((generate_sensor_reading cfg eq st d now).1).efficiency_percent ∧
    ((generate_sensor_reading cfg eq st d now).1).efficiency_percent ≤ 100 := by
  simp only [generate_sensor_reading]
  refine ⟨?_, ?_, ?_, ?_, ?_, ?_, ?_, ?_, ?_⟩
  · exact roundTo2_ge_fifteen _ (simulate_temperature_lb _ _ _ _ _ _)
  · have h := roundTo_le_of_le 2 _ _ (simulate_temperature_ub cfg.temperature
      (get_base_temperature eq.equipment_type) eq.max_temperature
      st.temperature_trend d.temp_noise d.temp_spike ht)
    norm_num at h ⊢
    linarith
  · exact roundTo_nonneg 2 _ (simulate_pressure_lb _ _ _ _ _ _)
  · have h := roundTo_le_of_le 2 _ _ (simulate_pressure_ub cfg.pressure
      (get_base_pressure eq.equipment_type) eq.max_pressure
      st.pressure_trend d.press_noise d.press_spike hp)
    norm_num at h ⊢
    linarith
  · exact roundTo_nonneg 1 _ (simulate_speed_lb _ _ _ _ _ _)
  · have h := roundTo_le_of_le 1 _ _ (simulate_speed_ub cfg.speed_rpm
      (get_base_speed eq.equipment_type) eq.max_speed
      d.speed_var d.speed_noise d.speed_spike hs)
    norm_num at h ⊢
    linarith
  · exact roundTo_nonneg 3 _ (simulate_vibration_lb _ _ _ _ _)
  · exact roundTo1_ge_thirty _ (simulate_efficiency_lb _ _ _ _)
  · exact roundTo1_le_hundred _ (simulate_efficiency_ub _ _ _ _)

/-- Witness for C1 (amended), at the scenario equipment and zero draws. -/
theorem C1_sensor_reading_bounds_witness :
    (15 ≤ eqEX.max_temperature * (12/10) ∧ 0 ≤ eqEX.max_pressure ∧
      0 ≤ eqEX.max_speed) ∧
    (15 ≤ ((generate_sensor_reading cfgZero eqEX stZero dZero 0).1).temperature ∧
    ((generate_sensor_reading cfgZero eqEX stZero dZero 0).1).temperature ≤
      eqEX.max_temperature * (12/10) + 1/200 ∧
    0 ≤ ((generate_sensor_reading cfgZero eqEX stZero dZero 0).1).pressure ∧
    ((generate_sensor_reading cfgZero eqEX stZero dZero 0).1).pressure ≤
      eqEX.max_pressure * (11/10) + 1/200 ∧
    0 ≤ ((generate_sensor_reading cfgZero eqEX stZero dZero 0).1).speed_rpm ∧
    ((generate_sensor_reading cfgZero eqEX stZero dZero 0).1).speed_rpm ≤
      eqEX.max_speed + 1/20 ∧
    0 ≤ ((generate_sensor_reading cfgZero eqEX stZero dZero 0).1).vibration ∧
    30 ≤ ((generate_sensor_reading cfgZero eqEX stZero dZero 0).1).efficiency_percent ∧
    ((generate_sensor_reading cfgZero eqEX stZero dZero 0).1).efficiency_percent ≤ 100) :=
  ⟨⟨by norm_num [eqEX], by norm_num [eqEX], by norm_num [eqEX]⟩,
    C1_sensor_reading_bounds cfgZero eqEX stZero dZero 0
      (by norm_num [eqEX]) (by norm_num [eqEX]) (by norm_num [eqEX])⟩

/-- Counterexample to C1 as stated: with maximum temperature `100.005`
(cap `120.006`) and a huge Gaussian noise draw, the clamped temperature is
`120.006`, which rounds to two decimals as `120.01 > 120.006`; so the
rounded temperature field escapes `[15, 1.2·max_temperature]`. -/
theorem C1_counterexample :
    ((generate_sensor_reading cfgZero eqCex stZero dHot 0).1).temperature >
      eqCex.max_temperature * (12/10) := by
  show roundTo 2 (simulate_temperature cfgZero.temperature
      (get_base_temperature eqCex.equipment_type) eqCex.max_temperature
      stZero.temperature_trend dHot.temp_noise dHot.temp_spike) >
    eqCex.max_temperature * (12/10)
  have h1 : simulate_temperature cfgZero.temperature
      (get_base_temperature eqCex.equipment_type) eqCex.max_temperature
      stZero.temperature_trend dHot.temp_noise dHot.temp_spike = 60003/500 := by
    norm_num [simulate_temperature, add_noise, simulate_spike, cfgZero, eqCex,
      stZero, dHot, dZero, get_base_temperature, min_def, max_def]
  have h2 : roundTo 2 ((60003:ℚ)/500) = 12001/100 := by
    unfold roundTo
    have hx : ((60003:ℚ)/500 * 10 ^ 2) = 60003/5 := by norm_num
    rw [hx, rhe_eq_high ((60003:ℚ)/5) 12000 (by norm_num) (by norm_num)]
    norm_num
  rw [h1, h2]
  norm_num [eqCex]

/-! ## C4 -/

/-- C4 (confirmed): one equipment-state update adds the nonnegative
increment `de ∈ U(0, 0.001)` to `efficiency_degradation` — so the field is
non-decreasing — unless the probability-0.001 reset fires
(`reset_r < 0.001`), in which case all four trend fields become exactly zero
and `last_maintenance` is refreshed to `now`. -/
theorem C4_efficiency_degradation (st : TrendState)
    (dt dp dv de reset_r now : ℚ) (hde : 0 ≤ de) :
    (¬ reset_r < 1/1000 →
      (update_equipment_state st dt dp dv de reset_r now).efficiency_degradation
          = st.efficiency_degradation + de ∧
      st.efficiency_degradation ≤
        (update_equipment_state st dt dp dv de reset_r now).efficiency_degradation) ∧
    (reset_r < 1/1000 →
      (update_equipment_state st dt dp dv de reset_r now).temperature_trend = 0 ∧
      (update_equipment_state st dt dp dv de reset_r now).pressure_trend = 0 ∧
      (update_equipment_state st dt dp dv de reset_r now).vibration_trend = 0 ∧
      (update_equipment_state st dt dp dv de reset_r now).efficiency_degradation = 0 ∧
      (update_equipment_state st dt dp dv de reset_r now).last_maintenance = now) := by
  refine ⟨fun h => ?_, fun h => ?_⟩
  · simp only [update_equipment_state, if_neg h]
    exact ⟨by trivial, by linarith⟩
  · simp only [update_equipment_state, if_pos h]
    exact ⟨by trivial, by trivial, by trivial, by trivial, by trivial⟩

/-- Witness for C4 at concrete inputs (no reset: `reset_r = 1/2`). -/
theorem C4_efficiency_degradation_witness :
    (0:ℚ) ≤ 1/1000 ∧
    ((¬ (1/2:ℚ) < 1/1000 →
      (update_equipment_state stZero 0 0 0 (1/1000) (1/2) 7).efficiency_degradation
          = stZero.efficiency_degradation + 1/1000 ∧
      stZero.efficiency_degradation ≤
        (update_equipment_state stZero 0 0 0 (1/1000) (1/2) 7).efficiency_degradation) ∧
    ((1/2:ℚ) < 1/1000 →
      (update_equipment_state stZero 0 0 0 (1/1000) (1/2) 7).temperature_trend = 0 ∧
      (update_equipment_state stZero 0 0 0 (1/1000) (1/2) 7).pressure_trend = 0 ∧
      (update_equipment_state stZero 0 0 0 (1/1000) (1/2) 7).vibration_trend = 0 ∧
      (update_equipment_state stZero 0 0 0 (1/1000) (1/2) 7).efficiency_degradation = 0 ∧
      (update_equipment_state stZero 0 0 0 (1/1000) (1/2) 7).last_maintenance = 7)) :=
  ⟨by norm_num, C4_efficiency_degradation stZero 0 0 0 (1/1000) (1/2) 7 (by norm_num)⟩

/-! ## C5 -/

/-- C5 (amended): the status rule is a priority rule in which the 0.5%
random-stop draw applies whenever neither the critical rule nor the
10% warning-maintenance draw produced a status — including the case where a
warning condition held but its 10% draw failed (the code falls through; the
draw is not restricted to "no warning condition held"). -/
theorem C5_status_priority (t p v mt mp : ℚ) (cc : Bool) (wr dr : ℚ)
    (dc : Bool) :
    ((t > mt * (95/100) ∨ p > mp * (95/100)) →
      determine_status t p v mt mp cc wr dr dc =
        (if cc then "ERROR" else "MAINTENANCE")) ∧
    (¬(t > mt * (95/100) ∨ p > mp * (95/100)) →
      ((t > mt * (85/100) ∨ p > mp * (85/100) ∨ v > 7/10) ∧ wr < 1/10) →
      determine_status t p v mt mp cc wr dr dc = "MAINTENANCE") ∧
    (¬(t > mt * (95/100) ∨ p > mp * (95/100)) →
      ¬((t > mt * (85/100) ∨ p > mp * (85/100) ∨ v > 7/10) ∧ wr < 1/10) →
      dr < 5/1000 →
      determine_status t p v mt mp cc wr dr dc =
        (if dc then "STOPPED" else "MAINTENANCE")) ∧
    (¬(t > mt * (95/100) ∨ p > mp * (95/100)) →
      ¬((t > mt * (85/100) ∨ p > mp * (85/100) ∨ v > 7/10) ∧ wr < 1/10) →
      ¬(dr < 5/1000) →
      determine_status t p v mt mp cc wr dr dc = "RUNNING") := by
  refine ⟨fun h1 => ?_, fun h1 h2 => ?_, fun h1 h2 h3 => ?_, fun h1 h2 h3 => ?_⟩
  · unfold determine_status
    rw [if_pos h1]
  · unfold determine_status
    rw [if_neg h1, if_pos h2]
  · unfold determine_status
    rw [if_neg h1, if_neg h2, if_pos h3]
  · unfold determine_status
    rw [if_neg h1, if_neg h2, if_neg h3]

/-- Witness for C5 (amended): warning condition holds (90 > 85), its 10%
draw fails (`wr = 1/2`), yet the 0.5% draw fires and yields STOPPED. -/
theorem C5_status_priority_witness :
    ¬((90:ℚ) > 100 * (95/100) ∨ (0:ℚ) > 100 * (95/100)) ∧
    ¬(((90:ℚ) > 100 * (85/100) ∨ (0:ℚ) > 100 * (85/100) ∨ (0:ℚ) > 7/10) ∧
      (1/2:ℚ) < 1/10) ∧
    ((1/1000:ℚ) < 5/1000) ∧
    determine_status 90 0 0 100 100 true (1/2) (1/1000) true =
      (if true then "STOPPED" else "MAINTENANCE") :=
  ⟨by norm_num, by norm_num, by norm_num,
    (C5_status_priority 90 0 0 100 100 true (1/2) (1/1000) true).2.2.1
      (by norm_num) (by norm_num) (by norm_num)⟩

/-- Counterexample to C5 as stated: with temperature 90 of max 100 (warning
band), a failed 10% draw (`wr = 1/2`) and a firing 0.5% draw
(`dr = 1/1000`), the code returns STOPPED while the claimed rule — which
takes the 0.5% draw only when no warning condition held — returns RUNNING. -/
theorem C5_counterexample :
    determine_status 90 0 0 100 100 true (1/2) (1/1000) true = "STOPPED" ∧
    determine_status_claim 90 0 0 100 100 true (1/2) (1/1000) true = "RUNNING" := by
  constructor
  · unfold determine_status
    rw [if_neg (by norm_num : ¬((90:ℚ) > 100 * (95/100) ∨ (0:ℚ) > 100 * (95/100))),
      if_neg (by norm_num :
        ¬(((90:ℚ) > 100 * (85/100) ∨ (0:ℚ) > 100 * (85/100) ∨ (0:ℚ) > 7/10) ∧
          (1/2:ℚ) < 1/10)),
      if_pos (by norm_num : (1/1000:ℚ) < 5/1000)]
    rfl
  · unfold determine_status_claim
    rw [if_neg (by norm_num : ¬((90:ℚ) > 100 * (95/100) ∨ (0:ℚ) > 100 * (95/100))),
      if_pos (by norm_num :
        ((90:ℚ) > 100 * (85/100) ∨ (0:ℚ) > 100 * (85/100) ∨ (0:ℚ) > 7/10)),
      if_neg (by norm_num : ¬((1/2:ℚ) < 1/10))]

/-! ## C8 -/

/-- C8 (amended): with a firing spike draw, temperature, pressure, vibration
and speed each receive the additive `± spike_magnitude` term before
clamping; efficiency receives no spike — its value is always the clamp of
`base − degradation + noise`, independent of any spike parameters. -/
theorem C8_spike_application (cfg : SensorConfig)
    (bt mt bp mp bs ms tt pt vt deg : ℚ) (vb sv eb nzT nzP nzV nzS nzE : ℚ)
    (spT spP spV spS : SpikeDraw)
    (hT : spT.r < cfg.temperature.spike_probability)
    (hP : spP.r < cfg.pressure.spike_probability)
    (hV : spV.r < cfg.vibration.spike_probability)
    (hS : spS.r < cfg.speed_rpm.spike_probability) :
    simulate_temperature cfg.temperature bt mt tt nzT spT =
      max 15 (min (mt * (12/10))
        (bt + tt + nzT + (if spT.dir then 1 else -1) * cfg.temperature.spike_magnitude)) ∧
    simulate_pressure cfg.pressure bp mp pt nzP spP =
      max 0 (min (mp * (11/10))
        (bp + pt + nzP + (if spP.dir then 1 else -1) * cfg.pressure.spike_magnitude)) ∧
    simulate_vibration cfg.vibration vt vb nzV spV =
      max 0 (vb + vt + nzV + (if spV.dir then 1 else -1) * cfg.vibration.spike_magnitude) ∧
    simulate_speed cfg.speed_rpm bs ms sv nzS spS =
      max 0 (min ms
        (bs * sv + nzS + (if spS.dir then 1 else -1) * cfg.speed_rpm.spike_magnitude)) ∧
    simulate_efficiency cfg.efficiency deg eb nzE =
      max 30 (min 100 (eb - deg + nzE)) := by
  refine ⟨?_, ?_, ?_, ?_, rfl⟩
  · simp only [simulate_temperature, add_noise, simulate_spike, if_pos hT]
  · simp only [simulate_pressure, add_noise, simulate_spike, if_pos hP]
  · simp only [simulate_vibration, add_noise, simulate_spike, if_pos hV]
  · simp only [simulate_speed, add_noise, simulate_spike, if_pos hS]

/-- Witness for C8 (amended) at a spike-heavy configuration. -/
theorem C8_spike_application_witness :
    ((0:ℚ) < cfgSpike.temperature.spike_probability ∧
      (0:ℚ) < cfgSpike.pressure.spike_probability ∧
      (0:ℚ) < cfgSpike.vibration.spike_probability ∧
      (0:ℚ) < cfgSpike.speed_rpm.spike_probability) ∧
    (simulate_temperature cfgSpike.temperature 45 100 0 0 ⟨0, true⟩ =
      max 15 (min ((100:ℚ) * (12/10))
        (45 + 0 + 0 + (if true then 1 else -1) * cfgSpike.temperature.spike_magnitude)) ∧
    simulate_pressure cfgSpike.pressure 80 120 0 0 ⟨0, true⟩ =
      max 0 (min ((120:ℚ) * (11/10))
        (80 + 0 + 0 + (if true then 1 else -1) * cfgSpike.pressure.spike_magnitude)) ∧
    simulate_vibration cfgSpike.vibration 0 (1/2) 0 ⟨0, true⟩ =
      max 0 ((1/2) + 0 + 0 + (if true then 1 else -1) * cfgSpike.vibration.spike_magnitude) ∧
    simulate_speed cfgSpike.speed_rpm 800 1000 1 0 ⟨0, true⟩ =
      max 0 (min (1000:ℚ)
        (800 * 1 + 0 + (if true then 1 else -1) * cfgSpike.speed_rpm.spike_magnitude)) ∧
    simulate_efficiency cfgSpike.efficiency 0 60 0 =
      max 30 (min 100 (60 - 0 + 0))) :=
  ⟨⟨by norm_num [cfgSpike], by norm_num [cfgSpike], by norm_num [cfgSpike],
      by norm_num [cfgSpike]⟩,
    C8_spike_application cfgSpike 45 100 80 120 800 1000 0 0 0 0 (1/2) 1 60 0 0 0 0 0
      ⟨0, true⟩ ⟨0, true⟩ ⟨0, true⟩ ⟨0, true⟩
      (by norm_num [cfgSpike]) (by norm_num [cfgSpike])
      (by norm_num [cfgSpike]) (by norm_num [cfgSpike])⟩

/-- Counterexample to C8 as stated: on identical inputs (base 60, zero
degradation, zero noise) with a certainly-firing positive spike of
magnitude 20, the code's efficiency is 60 while the claimed
spike-then-clamp computation yields 80: the code applies no spike to
efficiency. -/
theorem C8_counterexample :
    simulate_efficiency ⟨50, 100, 0⟩ 0 60 0 = 60 ∧
    simulate_efficiency_with_spike 1 20 0 60 0 ⟨0, true⟩ = 80 ∧
    (60:ℚ) ≠ 80 := by
  refine ⟨?_, ?_, by norm_num⟩
  · norm_num [simulate_efficiency, add_noise, min_def, max_def]
  · norm_num [simulate_efficiency_with_spike, simulate_spike, add_noise,
      min_def, max_def]

/-! ## C2 -/

/-- C2 (amended): on a failing test the rounded measurement is strictly
outside `[specification_min, specification_max]` and the defect type is
non-null (using that the precision has at least one decimal place, so the
rounding error is below the minimum 0.1 out-of-spec offset); on a passing
test the defect type is null and the rounded measurement lies within the
specification interval enlarged by half a rounding unit on each side
(rounding an in-spec draw can escape a bound that is not representable at
the measurement precision). -/
theorem C2_quality_spec_flag (defect_types : List String) (product : Product)
    (eq : Equipment) (inspector : Inspector) (test : QualityTest)
    (d : QualityDraws) (now : ℚ) (dateStr : String)
    (hv : ValidQualityDraws test d) (hd : 1 ≤ test.precision_decimals) :
    ((generate_quality_test defect_types product eq inspector test d now dateStr).is_within_spec = true →
      test.spec_lo - 1 / (2 * 10 ^ test.precision_decimals) ≤
        (generate_quality_test defect_types product eq inspector test d now dateStr).measurement_value ∧
      (generate_quality_test defect_types product eq inspector test d now dateStr).measurement_value ≤
        test.spec_hi + 1 / (2 * 10 ^ test.precision_decimals) ∧
      (generate_quality_test defect_types product eq inspector test d now dateStr).defect_type = none) ∧
    ((generate_quality_test defect_types product eq inspector test d now dateStr).is_within_spec = false →
      ((generate_quality_test defect_types product eq inspector test d now dateStr).measurement_value < test.spec_lo ∨
        test.spec_hi <
          (generate_quality_test defect_types product eq inspector test d now dateStr).measurement_value) ∧
      (generate_quality_test defect_types product eq inspector test d now dateStr).defect_type ≠ none) := by
  obtain ⟨hf0, hf1, hm0, hm1, hs0, hs1, ho0, ho1, hss0, hss1⟩ := hv
  have hulp : (1:ℚ) / (2 * 10 ^ test.precision_decimals) ≤ 1/20 := by
    have h10 : (10:ℚ) ≤ 10 ^ test.precision_decimals := by
      calc (10:ℚ) = 10 ^ 1 := by norm_num
      _ ≤ 10 ^ test.precision_decimals := pow_le_pow_right₀ (by norm_num) hd
    have h20 : (20:ℚ) ≤ 2 * 10 ^ test.precision_decimals := by linarith
    exact one_div_le_one_div_of_le (by norm_num) h20
  have hulp0 : (0:ℚ) < 1 / (2 * 10 ^ test.precision_decimals) := by positivity
  by_cases hpass : d.fail_r > test.failure_probability
  · have hb : decide (d.fail_r > test.failure_probability) = true :=
      decide_eq_true hpass
    refine ⟨fun _ => ?_, fun hfalse => ?_⟩
    · have hmeas : (generate_quality_test defect_types product eq inspector test d now dateStr).measurement_value
          = roundTo test.precision_decimals d.pass_meas := by
        simp [generate_quality_test, hb]
      have hdef : (generate_quality_test defect_types product eq inspector test d now dateStr).defect_type
          = none := by
        simp [generate_quality_test, hb]
      rw [hmeas]
      refine ⟨?_, ?_, hdef⟩
      · have h := sub_half_ulp_le_roundTo test.precision_decimals d.pass_meas
        linarith
      · have h := roundTo_le_add_half_ulp test.precision_decimals d.pass_meas
        linarith
    · exfalso
      have hflag : (generate_quality_test defect_types product eq inspector test d now dateStr).is_within_spec
          = true := by
        simp [generate_quality_test, hb]
      rw [hflag] at hfalse
      exact Bool.noConfusion hfalse
  · have hb : decide (d.fail_r > test.failure_probability) = false :=
      decide_eq_false hpass
    refine ⟨fun htrue => ?_, fun _ => ?_⟩
    · exfalso
      have hflag : (generate_quality_test defect_types product eq inspector test d now dateStr).is_within_spec
          = false := by
        simp [generate_quality_test, hb]
      rw [hflag] at htrue
      exact Bool.noConfusion htrue
    · have hdef : (generate_quality_test defect_types product eq inspector test d now dateStr).defect_type
          = some (defect_types.getD (d.defect_c % defect_types.length) "") := by
        simp [generate_quality_test, hb]
      by_cases hside : d.side_r < 1/2
      · have hside2 : d.side_r < (2:ℚ)⁻¹ := by rwa [← one_div]
        have hmeas : (generate_quality_test defect_types product eq inspector test d now dateStr).measurement_value
            = roundTo test.precision_decimals (test.spec_lo - d.off) := by
          simp [generate_quality_test, hb]
          rw [if_pos hside2]
        refine ⟨Or.inl ?_, by rw [hdef]; exact Option.some_ne_none _⟩
        rw [hmeas]
        have h := roundTo_le_add_half_ulp test.precision_decimals (test.spec_lo - d.off)
        linarith
      · have hside2 : ¬ d.side_r < (2:ℚ)⁻¹ := by rw [← one_div]; exact hside
        have hmeas : (generate_quality_test defect_types product eq inspector test d now dateStr).measurement_value
            = roundTo test.precision_decimals (test.spec_hi + d.off) := by
          simp [generate_quality_test, hb]
          rw [if_neg hside2]
        refine ⟨Or.inr ?_, by rw [hdef]; exact Option.some_ne_none _⟩
        rw [hmeas]
        have h := sub_half_ulp_le_roundTo test.precision_decimals (test.spec_hi + d.off)
        linarith

/-- Witness for C2 (amended), at the fixture test and a passing draw. -/
theorem C2_quality_spec_flag_witness :
    (ValidQualityDraws testCex qdPass ∧ 1 ≤ testCex.precision_decimals) ∧
    (((generate_quality_test defects0 ⟨"P1"⟩ eqEX ⟨"I1"⟩ testCex qdPass 0 "20240101").is_within_spec = true →
      testCex.spec_lo - 1 / (2 * 10 ^ testCex.precision_decimals) ≤
        (generate_quality_test defects0 ⟨"P1"⟩ eqEX ⟨"I1"⟩ testCex qdPass 0 "20240101").measurement_value ∧
      (generate_quality_test defects0 ⟨"P1"⟩ eqEX ⟨"I1"⟩ testCex qdPass 0 "20240101").measurement_value ≤
        testCex.spec_hi + 1 / (2 * 10 ^ testCex.precision_decimals) ∧
      (generate_quality_test defects0 ⟨"P1"⟩ eqEX ⟨"I1"⟩ testCex qdPass 0 "20240101").defect_type = none) ∧
    ((generate_quality_test defects0 ⟨"P1"⟩ eqEX ⟨"I1"⟩ testCex qdPass 0 "20240101").is_within_spec = false →
      ((generate_quality_test defects0 ⟨"P1"⟩ eqEX ⟨"I1"⟩ testCex qdPass 0 "20240101").measurement_value < testCex.spec_lo ∨
        testCex.spec_hi <
          (generate_quality_test defects0 ⟨"P1"⟩ eqEX ⟨"I1"⟩ testCex qdPass 0 "20240101").measurement_value) ∧
      (generate_quality_test defects0 ⟨"P1"⟩ eqEX ⟨"I1"⟩ testCex qdPass 0 "20240101").defect_type ≠ none)) :=
  ⟨⟨by norm_num [ValidQualityDraws, testCex, qdPass], by norm_num [testCex]⟩,
    C2_quality_spec_flag defects0 ⟨"P1"⟩ eqEX ⟨"I1"⟩ testCex qdPass 0 "20240101"
      (by norm_num [ValidQualityDraws, testCex, qdPass]) (by norm_num [testCex])⟩

/-- Counterexample to C2 as stated: with specification range `[0, 0.26]`,
one-decimal precision and an in-spec uniform draw landing on the upper
bound, the test passes (`is_within_spec = true`) but the rounded
measurement `round(0.26, 1) = 0.3` lies strictly outside
`[specification_min, specification_max]`. -/
theorem C2_counterexample :
    (generate_quality_test defects0 ⟨"P1"⟩ eqEX ⟨"I1"⟩ testCex qdPass 0 "20240101").is_within_spec = true ∧
    (generate_quality_test defects0 ⟨"P1"⟩ eqEX ⟨"I1"⟩ testCex qdPass 0 "20240101").specification_max <
      (generate_quality_test defects0 ⟨"P1"⟩ eqEX ⟨"I1"⟩ testCex qdPass 0 "20240101").measurement_value := by
  have hb : decide (qdPass.fail_r > testCex.failure_probability) = true :=
    decide_eq_true (by norm_num [qdPass, testCex])
  constructor
  · show decide (qdPass.fail_r > testCex.failure_probability) = true
    exact hb
  · have hmeas : (generate_quality_test defects0 ⟨"P1"⟩ eqEX ⟨"I1"⟩ testCex qdPass 0 "20240101").measurement_value
        = roundTo 1 ((13:ℚ)/50) := by
      norm_num [generate_quality_test, qdPass, testCex]
    have hmax : (generate_quality_test defects0 ⟨"P1"⟩ eqEX ⟨"I1"⟩ testCex qdPass 0 "20240101").specification_max
        = 13/50 := rfl
    have hround : roundTo 1 ((13:ℚ)/50) = 3/10 := by
      unfold roundTo
      have hx : ((13:ℚ)/50 * 10 ^ 1) = 13/5 := by norm_num
      rw [hx, rhe_eq_high ((13:ℚ)/5) 2 (by norm_num) (by norm_num)]
      norm_num
    rw [hmeas, hmax, hround]
    norm_num

/-! ## C6 -/

/-- C6 (confirmed): every PRODUCTION event has
`0 ≤ reject_count ≤ units_produced`, zero downtime, and
`units_produced ≤ planned_units ≤ units_produced + 2`. -/
theorem C6_production_event (cfg : ProductionConfig) (eq : Equipment)
    (line : ProductionLine) (product : Product) (operator : Operator)
    (d : ProdDraws) (now : ℚ) (dateStr : String) (hv : ValidProdDraws cfg d) :
    (generate_production_event cfg eq line product operator d now dateStr).event_type = "PRODUCTION" →
      0 ≤ (generate_production_event cfg eq line product operator d now dateStr).reject_count ∧
      (generate_production_event cfg eq line product operator d now dateStr).reject_count ≤
        (generate_production_event cfg eq line product operator d now dateStr).units_produced ∧
      (generate_production_event cfg eq line product operator d now dateStr).downtime_minutes = 0 ∧
      (generate_production_event cfg eq line product operator d now dateStr).units_produced ≤
        (generate_production_event cfg eq line product operator d now dateStr).planned_units ∧
      (generate_production_event cfg eq line product operator d now dateStr).planned_units ≤
        (generate_production_event cfg eq line product operator d now dateStr).units_produced + 2 := by
  intro h
  have hevent : determine_event_type d.event_c = "PRODUCTION" := h
  obtain ⟨hu0, hu1, hex, hp0, hp1, he0, hrs⟩ := hv
  simp only [generate_production_event, if_pos hevent]
  refine ⟨Nat.zero_le _, ?_, ?_, ?_, ?_⟩
  · have h := List.countP_le_length
      (fun i => decide (d.reject_rs i < cfg.production_volume.reject_probability))
      (l := List.range d.units_draw)
    simpa [generate_reject_count] using h
  · exact roundTo_zero 1
  · exact Nat.le_add_right _ _
  · omega

/-- Witness for C6, at the fixture configuration and a PRODUCTION draw. -/
theorem C6_production_event_witness :
    ValidProdDraws prodCfg0 pdProd ∧
    (generate_production_event prodCfg0 eqEX ⟨"L1"⟩ ⟨"P1"⟩ ⟨"OP1", "DAY_SHIFT"⟩ pdProd 0 "20240101").event_type = "PRODUCTION" ∧
    (0 ≤ (generate_production_event prodCfg0 eqEX ⟨"L1"⟩ ⟨"P1"⟩ ⟨"OP1", "DAY_SHIFT"⟩ pdProd 0 "20240101").reject_count ∧
      (generate_production_event prodCfg0 eqEX ⟨"L1"⟩ ⟨"P1"⟩ ⟨"OP1", "DAY_SHIFT"⟩ pdProd 0 "20240101").reject_count ≤
        (generate_production_event prodCfg0 eqEX ⟨"L1"⟩ ⟨"P1"⟩ ⟨"OP1", "DAY_SHIFT"⟩ pdProd 0 "20240101").units_produced ∧
      (generate_production_event prodCfg0 eqEX ⟨"L1"⟩ ⟨"P1"⟩ ⟨"OP1", "DAY_SHIFT"⟩ pdProd 0 "20240101").downtime_minutes = 0 ∧
      (generate_production_event prodCfg0 eqEX ⟨"L1"⟩ ⟨"P1"⟩ ⟨"OP1", "DAY_SHIFT"⟩ pdProd 0 "20240101").units_produced ≤
        (generate_production_event prodCfg0 eqEX ⟨"L1"⟩ ⟨"P1"⟩ ⟨"OP1", "DAY_SHIFT"⟩ pdProd 0 "20240101").planned_units ∧
      (generate_production_event prodCfg0 eqEX ⟨"L1"⟩ ⟨"P1"⟩ ⟨"OP1", "DAY_SHIFT"⟩ pdProd 0 "20240101").planned_units ≤
        (generate_production_event prodCfg0 eqEX ⟨"L1"⟩ ⟨"P1"⟩ ⟨"OP1", "DAY_SHIFT"⟩ pdProd 0 "20240101").units_produced + 2) := by
  have hv : ValidProdDraws prodCfg0 pdProd := by
    refine ⟨by norm_num [prodCfg0, pdProd], by norm_num [prodCfg0, pdProd],
      by norm_num [pdProd], by norm_num [pdProd], by norm_num [pdProd],
      by norm_num [pdProd], fun i => ⟨by norm_num [pdProd], by norm_num [pdProd]⟩⟩
  have hev : (generate_production_event prodCfg0 eqEX ⟨"L1"⟩ ⟨"P1"⟩ ⟨"OP1", "DAY_SHIFT"⟩ pdProd 0 "20240101").event_type = "PRODUCTION" := rfl
  exact ⟨hv, hev,
    C6_production_event prodCfg0 eqEX ⟨"L1"⟩ ⟨"P1"⟩ ⟨"OP1", "DAY_SHIFT"⟩ pdProd 0 "20240101" hv hev⟩

/-! ## C7 -/

/-- C7 (amended): every non-PRODUCTION event has `units_produced = 0`,
`reject_count = 0`, `planned_units ∈ [1, 10]`, and its rounded
`downtime_minutes` is at most `max_duration_minutes + 1/20` (the unrounded
downtime is capped at `max_duration_minutes`, but rounding to one decimal
place can exceed a cap that is not a multiple of 0.1 by up to 0.05). -/
theorem C7_nonproduction_event (cfg : ProductionConfig) (eq : Equipment)
    (line : ProductionLine) (product : Product) (operator : Operator)
    (d : ProdDraws) (now : ℚ) (dateStr : String) (hv : ValidProdDraws cfg d) :
    (generate_production_event cfg eq line product operator d now dateStr).event_type ≠ "PRODUCTION" →
      (generate_production_event cfg eq line product operator d now dateStr).units_produced = 0 ∧
      (generate_production_event cfg eq line product operator d now dateStr).reject_count = 0 ∧
      1 ≤ (generate_production_event cfg eq line product operator d now dateStr).planned_units ∧
      (generate_production_event cfg eq line product operator d now dateStr).planned_units ≤ 10 ∧
      (generate_production_event cfg eq line product operator d now dateStr).downtime_minutes ≤
        cfg.downtime.max_duration_minutes + 1/20 := by
  intro h
  have hevent : ¬(determine_event_type d.event_c = "PRODUCTION") := h
  obtain ⟨hu0, hu1, hex, hp0, hp1, he0, hrs⟩ := hv
  simp only [generate_production_event, if_neg hevent]
  refine ⟨by trivial, by trivial, hp0, hp1, ?_⟩
  have h1 : generate_downtime cfg d.exp_draw ≤ cfg.downtime.max_duration_minutes :=
    min_le_right _ _
  have h2 := roundTo_le_of_le 1 _ _ h1
  norm_num at h2 ⊢
  linarith

/-- Witness for C7 (amended), at the counterexample configuration. -/
theorem C7_nonproduction_event_witness :
    ValidProdDraws prodCfgCex pdNonProd ∧
    (generate_production_event prodCfgCex eqEX ⟨"L1"⟩ ⟨"P1"⟩ ⟨"OP1", "DAY_SHIFT"⟩ pdNonProd 0 "20240101").event_type ≠ "PRODUCTION" ∧
    ((generate_production_event prodCfgCex eqEX ⟨"L1"⟩ ⟨"P1"⟩ ⟨"OP1", "DAY_SHIFT"⟩ pdNonProd 0 "20240101").units_produced = 0 ∧
      (generate_production_event prodCfgCex eqEX ⟨"L1"⟩ ⟨"P1"⟩ ⟨"OP1", "DAY_SHIFT"⟩ pdNonProd 0 "20240101").reject_count = 0 ∧
      1 ≤ (generate_production_event prodCfgCex eqEX ⟨"L1"⟩ ⟨"P1"⟩ ⟨"OP1", "DAY_SHIFT"⟩ pdNonProd 0 "20240101").planned_units ∧
      (generate_production_event prodCfgCex eqEX ⟨"L1"⟩ ⟨"P1"⟩ ⟨"OP1", "DAY_SHIFT"⟩ pdNonProd 0 "20240101").planned_units ≤ 10 ∧
      (generate_production_event prodCfgCex eqEX ⟨"L1"⟩ ⟨"P1"⟩ ⟨"OP1", "DAY_SHIFT"⟩ pdNonProd 0 "20240101").downtime_minutes ≤
        prodCfgCex.downtime.max_duration_minutes + 1/20) := by
  have hv : ValidProdDraws prodCfgCex pdNonProd := by
    refine ⟨by norm_num [prodCfgCex, pdNonProd], by norm_num [prodCfgCex, pdNonProd],
      by norm_num [pdNonProd], by norm_num [pdNonProd], by norm_num [pdNonProd],
      by norm_num [pdNonProd], fun i => ⟨by norm_num [pdNonProd], by norm_num [pdNonProd]⟩⟩
  have hev : (generate_production_event prodCfgCex eqEX ⟨"L1"⟩ ⟨"P1"⟩ ⟨"OP1", "DAY_SHIFT"⟩ pdNonProd 0 "20240101").event_type ≠ "PRODUCTION" := by
    show determine_event_type pdNonProd.event_c ≠ "PRODUCTION"
    rw [show determine_event_type pdNonProd.event_c = "CHANGEOVER" from rfl]
    decide
  exact ⟨hv, hev,
    C7_nonproduction_event prodCfgCex eqEX ⟨"L1"⟩ ⟨"P1"⟩ ⟨"OP1", "DAY_SHIFT"⟩ pdNonProd 0 "20240101" hv hev⟩

/-- Counterexample to C7 as stated: with a downtime cap of `10.06` minutes
and an exponential draw of 20, the capped downtime is `10.06`, which rounds
to one decimal as `10.1 > 10.06`: the rounded `downtime_minutes` field
exceeds the configured `max_duration_minutes`. -/
theorem C7_counterexample :
    (generate_production_event prodCfgCex eqEX ⟨"L1"⟩ ⟨"P1"⟩ ⟨"OP1", "DAY_SHIFT"⟩ pdNonProd 0 "20240101").event_type ≠ "PRODUCTION" ∧
    prodCfgCex.downtime.max_duration_minutes <
      (generate_production_event prodCfgCex eqEX ⟨"L1"⟩ ⟨"P1"⟩ ⟨"OP1", "DAY_SHIFT"⟩ pdNonProd 0 "20240101").downtime_minutes := by
  have hne : ¬(determine_event_type pdNonProd.event_c = "PRODUCTION") := by
    rw [show determine_event_type pdNonProd.event_c = "CHANGEOVER" from rfl]
    decide
  constructor
  · exact hne
  · have hmeas : (generate_production_event prodCfgCex eqEX ⟨"L1"⟩ ⟨"P1"⟩ ⟨"OP1", "DAY_SHIFT"⟩ pdNonProd 0 "20240101").downtime_minutes
        = roundTo 1 (generate_downtime prodCfgCex pdNonProd.exp_draw) := by
      simp only [generate_production_event, if_neg hne]
    have hdt : generate_downtime prodCfgCex pdNonProd.exp_draw = 1006/100 := by
      norm_num [generate_downtime, prodCfgCex, pdNonProd, min_def]
    have hround : roundTo 1 ((1006:ℚ)/100) = 101/10 := by
      unfold roundTo
      have hx : ((1006:ℚ)/100 * 10 ^ 1) = 1006/10 := by norm_num
      rw [hx, rhe_eq_high ((1006:ℚ)/10) 100 (by norm_num) (by norm_num)]
      norm_num
    rw [hmeas, hdt, hround]
    norm_num [prodCfgCex]

/-! ## State-table lemmas -/

theorem lookup_state_cons_pos (a : String × TrendState)
    (tl : List (String × TrendState)) (id : String)
    (h : (a.1 == id) = true) : lookup_state (a :: tl) id = some a.2 := by
  simp only [lookup_state, List.find?]
  rw [h]
  rfl

theorem lookup_state_cons_neg (a : String × TrendState)
    (tl : List (String × TrendState)) (id : String)
    (h : (a.1 == id) = false) :
    lookup_state (a :: tl) id = lookup_state tl id := by
  simp only [lookup_state, List.find?]
  rw [h]

theorem lookup_initialize_shape (eqs : List Equipment) (ds : ℕ → ℕ)
    (now : ℚ) (id : String) :
    ∃ lm, (lookup_state (initialize_equipment_state eqs ds now) id).getD
        ⟨0, 0, 0, 0, 0, "RUNNING"⟩ = ⟨0, 0, 0, 0, lm, "RUNNING"⟩ := by
  induction eqs generalizing ds with
  | nil => exact ⟨0, rfl⟩
  | cons e es ih =>
    by_cases h : e.equipment_id = id
    · refine ⟨now - ds 0, ?_⟩
      simp only [initialize_equipment_state]
      rw [lookup_state_cons_pos]
      · rfl
      · exact beq_iff_eq.mpr h
    · obtain ⟨lm, hlm⟩ := ih (fun i => ds (i + 1))
      refine ⟨lm, ?_⟩
      simp only [initialize_equipment_state]
      rw [lookup_state_cons_neg]
      · exact hlm
      · exact beq_eq_false_iff_ne.mpr h

theorem initialize_keys (eqs : List Equipment) (ds : ℕ → ℕ) (now : ℚ) :
    (initialize_equipment_state eqs ds now).map Prod.fst =
      eqs.map Equipment.equipment_id := by
  induction eqs generalizing ds with
  | nil => rfl
  | cons e es ih => simp [initialize_equipment_state, ih]

theorem update_state_table_keys (tbl : List (String × TrendState))
    (id : String) (st : TrendState) :
    (update_state_table tbl id st).map Prod.fst = tbl.map Prod.fst := by
  unfold update_state_table
  rw [List.map_map]
  apply List.map_congr_left
  intro p _
  by_cases h : p.1 = id <;> simp [h]

theorem lookup_update_ne (tbl : List (String × TrendState))
    (id id' : String) (st : TrendState) (h : id' ≠ id) :
    lookup_state (update_state_table tbl id st) id' = lookup_state tbl id' := by
  induction tbl with
  | nil => rfl
  | cons p tl ih =>
    show lookup_state ((if p.1 = id then (p.1, st) else p) ::
      update_state_table tl id st) id' = lookup_state (p :: tl) id'
    by_cases hp : p.1 = id
    · have hnb : ((p.1 == id') = false) :=
        beq_eq_false_iff_ne.mpr (by rw [hp]; exact fun he => h he.symm)
      rw [if_pos hp, lookup_state_cons_neg, lookup_state_cons_neg]
      · exact ih
      · exact hnb
      · exact hnb
    · rw [if_neg hp]
      by_cases hq : p.1 = id'
      · have hb : ((p.1 == id') = true) := beq_iff_eq.mpr hq
        rw [lookup_state_cons_pos, lookup_state_cons_pos]
        · exact hb
        · exact hb
      · have hnb : ((p.1 == id') = false) := beq_eq_false_iff_ne.mpr hq
        rw [lookup_state_cons_neg, lookup_state_cons_neg]
        · exact ih
        · exact hnb
        · exact hnb

/-! ## C10 -/

/-- C10 (confirmed): one batch iteration updates only the chosen equipment's
trend state — lookups of every other id are unchanged — preserves the key
set of the state table, and the table built at construction has exactly the
configured equipment ids as keys. -/
theorem C10_state_frame (cfg : SensorConfig) (eqs : List Equipment)
    (tbl : List (String × TrendState)) (s : SensorStep) (ds : ℕ → ℕ)
    (now0 : ℚ) (id' : String)
    (h : id' ≠ (eqs.getD (s.choice % eqs.length) ⟨"", "", 0, 0, 0⟩).equipment_id) :
    lookup_state (gen_step cfg eqs tbl s).2 id' = lookup_state tbl id' ∧
    ((gen_step cfg eqs tbl s).2).map Prod.fst = tbl.map Prod.fst ∧
    (initialize_equipment_state eqs ds now0).map Prod.fst =
      eqs.map Equipment.equipment_id := by
  refine ⟨?_, ?_, initialize_keys eqs ds now0⟩
  · exact lookup_update_ne tbl _ id' _ h
  · exact update_state_table_keys tbl _ _

/-- Witness for C10 on a two-equipment table: a reading for `EQ1` leaves the
state of `EQ2` untouched and the key set intact. -/
theorem C10_state_frame_witness :
    ("EQ2" ≠ (([eqEX, eqB].getD (0 % [eqEX, eqB].length) ⟨"", "", 0, 0, 0⟩).equipment_id)) ∧
    (lookup_state (gen_step cfgZero [eqEX, eqB]
        (initialize_equipment_state [eqEX, eqB] initDays5 0) ⟨0, dZero, 0⟩).2 "EQ2" =
      lookup_state (initialize_equipment_state [eqEX, eqB] initDays5 0) "EQ2" ∧
    ((gen_step cfgZero [eqEX, eqB]
        (initialize_equipment_state [eqEX, eqB] initDays5 0) ⟨0, dZero, 0⟩).2).map Prod.fst =
      (initialize_equipment_state [eqEX, eqB] initDays5 0).map Prod.fst ∧
    (initialize_equipment_state [eqEX, eqB] initDays5 0).map Prod.fst =
      [eqEX, eqB].map Equipment.equipment_id) :=
  ⟨by simp [eqEX, eqB],
    C10_state_frame cfgZero [eqEX, eqB]
      (initialize_equipment_state [eqEX, eqB] initDays5 0) ⟨0, dZero, 0⟩
      initDays5 0 "EQ2" (by simp [eqEX, eqB])⟩

/-! ## C3 -/

/-- C3 (amended): two runs of the single-reading determinism scenario with
identical seeded draws agree on every field of the record except
`timestamp`, which is the wall-clock time of the run (so the records are
identical only if the two runs read the same clock instant).  The
`datetime.now()` timestamp is not derived from the seeded random state. -/
theorem C3_run_determinism (cfg : SensorConfig) (eqs : List Equipment)
    (ds : ℕ → ℕ) (choice : ℕ) (d : SensorDraws) (t1 t2 : ℚ) :
    (sensor_run cfg eqs ds choice d t1).equipment_id =
      (sensor_run cfg eqs ds choice d t2).equipment_id ∧
    (sensor_run cfg eqs ds choice d t1).sensor_type =
      (sensor_run cfg eqs ds choice d t2).sensor_type ∧
    (sensor_run cfg eqs ds choice d t1).temperature =
      (sensor_run cfg eqs ds choice d t2).temperature ∧
    (sensor_run cfg eqs ds choice d t1).pressure =
      (sensor_run cfg eqs ds choice d t2).pressure ∧
    (sensor_run cfg eqs ds choice d t1).vibration =
      (sensor_run cfg eqs ds choice d t2).vibration ∧
    (sensor_run cfg eqs ds choice d t1).speed_rpm =
      (sensor_run cfg eqs ds choice d t2).speed_rpm ∧
    (sensor_run cfg eqs ds choice d t1).power_consumption =
      (sensor_run cfg eqs ds choice d t2).power_consumption ∧
    (sensor_run cfg eqs ds choice d t1).efficiency_percent =
      (sensor_run cfg eqs ds choice d t2).efficiency_percent ∧
    (sensor_run cfg eqs ds choice d t1).status =
      (sensor_run cfg eqs ds choice d t2).status ∧
    (sensor_run cfg eqs ds choice d t1).timestamp = t1 ∧
    (sensor_run cfg eqs ds choice d t2).timestamp = t2 := by
  have key : ∀ (t lm : ℚ),
      (lookup_state (initialize_equipment_state eqs ds t)
          (eqs.getD (choice % eqs.length) ⟨"", "", 0, 0, 0⟩).equipment_id).getD
        ⟨0, 0, 0, 0, 0, "RUNNING"⟩ = ⟨0, 0, 0, 0, lm, "RUNNING"⟩ →
      sensor_run cfg eqs ds choice d t =
        (generate_sensor_reading cfg
          (eqs.getD (choice % eqs.length) ⟨"", "", 0, 0, 0⟩)
          ⟨0, 0, 0, 0, lm, "RUNNING"⟩ d t).1 := by
    intro t lm h
    show (generate_sensor_reading cfg
        (eqs.getD (choice % eqs.length) ⟨"", "", 0, 0, 0⟩)
        ((lookup_state (initialize_equipment_state eqs ds t)
            (eqs.getD (choice % eqs.length) ⟨"", "", 0, 0, 0⟩).equipment_id).getD
          ⟨0, 0, 0, 0, 0, "RUNNING"⟩) d t).1 =
      (generate_sensor_reading cfg
        (eqs.getD (choice % eqs.length) ⟨"", "", 0, 0, 0⟩)
        ⟨0, 0, 0, 0, lm, "RUNNING"⟩ d t).1
    rw [h]
  obtain ⟨lm1, h1⟩ := lookup_initialize_shape eqs ds t1
    (eqs.getD (choice % eqs.length) ⟨"", "", 0, 0, 0⟩).equipment_id
  obtain ⟨lm2, h2⟩ := lookup_initialize_shape eqs ds t2
    (eqs.getD (choice % eqs.length) ⟨"", "", 0, 0, 0⟩).equipment_id
  rw [key t1 lm1 h1, key t2 lm2 h2]
  exact ⟨rfl, rfl, rfl, rfl, rfl, rfl, rfl, rfl, rfl, rfl, rfl⟩

/-- Counterexample to C3 as stated: with identical seeded draws but the two
runs sampling the wall clock at different instants, the two output records
differ (in the timestamp field), so they are not byte-identical. -/
theorem C3_counterexample :
    sensor_run cfgZero [eqEX] initDays5 0 dZero 0 ≠
      sensor_run cfgZero [eqEX] initDays5 0 dZero 1 := by
  intro h
  have ht := congrArg SensorReading.timestamp h
  rw [show (sensor_run cfgZero [eqEX] initDays5 0 dZero 0).timestamp = 0 from rfl,
    show (sensor_run cfgZero [eqEX] initDays5 0 dZero 1).timestamp = 1 from rfl] at ht
  norm_num at ht

/-! ## Batch lemmas -/

theorem sensor_generate_batch_length (cfg : SensorConfig) (eqs : List Equipment) :
    ∀ (n : ℕ) (tbl : List (String × TrendState)) (tape : ℕ → SensorStep),
      (sensor_generate_batch cfg eqs n tbl tape).length = n := by
  intro n
  induction n with
  | zero => intro tbl tape; rfl
  | succ k ih => intro tbl tape; simp [sensor_generate_batch, ih]

theorem sensor_generate_batch_get (cfg : SensorConfig) (eqs : List Equipment) :
    ∀ (n i : ℕ) (tbl : List (String × TrendState)) (tape : ℕ → SensorStep),
      i < n →
      (sensor_generate_batch cfg eqs n tbl tape)[i]? =
        some (sensor_record_at cfg eqs tbl tape i) := by
  intro n
  induction n with
  | zero => intro i tbl tape h; exact absurd h (Nat.not_lt_zero i)
  | succ k ih =>
    intro i tbl tape h
    cases i with
    | zero => simp [sensor_generate_batch, sensor_record_at]
    | succ j =>
      have hj : j < k := Nat.lt_of_succ_lt_succ h
      simp only [sensor_generate_batch, sensor_record_at, List.getElem?_cons_succ]
      exact ih j _ _ hj

theorem production_generate_batch_length (cfg : ProductionConfig)
    (eqs : List Equipment) (refs : ℕ → EquipmentLineRef)
    (lines : List ProductionLine) (products : List Product)
    (ops : List Operator) :
    ∀ (n : ℕ) (tape : ℕ → ProdStep),
      (production_generate_batch cfg eqs refs lines products ops n tape).length = n := by
  intro n
  induction n with
  | zero => intro tape; rfl
  | succ k ih => intro tape; simp [production_generate_batch, ih]

theorem production_generate_batch_get (cfg : ProductionConfig)
    (eqs : List Equipment) (refs : ℕ → EquipmentLineRef)
    (lines : List ProductionLine) (products : List Product)
    (ops : List Operator) :
    ∀ (n i : ℕ) (tape : ℕ → ProdStep), i < n →
      (production_generate_batch cfg eqs refs lines products ops n tape)[i]? =
        some (gen_production_one cfg eqs refs lines products ops (tape i)) := by
  intro n
  induction n with
  | zero => intro i tape h; exact absurd h (Nat.not_lt_zero i)
  | succ k ih =>
    intro i tape h
    cases i with
    | zero => simp [production_generate_batch]
    | succ j =>
      have hj : j < k := Nat.lt_of_succ_lt_succ h
      simp only [production_generate_batch, List.getElem?_cons_succ]
      exact ih j _ hj

theorem quality_generate_batch_length (defect_types : List String)
    (eqs : List Equipment) (products : List Product)
    (inspectors : List Inspector) (tests : List QualityTest) :
    ∀ (n : ℕ) (tape : ℕ → QualityStep),
      (quality_generate_batch defect_types eqs products inspectors tests n tape).length = n := by
  intro n
  induction n with
  | zero => intro tape; rfl
  | succ k ih => intro tape; simp [quality_generate_batch, ih]

theorem quality_generate_batch_get (defect_types : List String)
    (eqs : List Equipment) (products : List Product)
    (inspectors : List Inspector) (tests : List QualityTest) :
    ∀ (n i : ℕ) (tape : ℕ → QualityStep), i < n →
      (quality_generate_batch defect_types eqs products inspectors tests n tape)[i]? =
        some (gen_quality_one defect_types eqs products inspectors tests (tape i)) := by
  intro n
  induction n with
  | zero => intro i tape h; exact absurd h (Nat.not_lt_zero i)
  | succ k ih =>
    intro i tape h
    cases i with
    | zero => simp [quality_generate_batch]
    | succ j =>
      have hj : j < k := Nat.lt_of_succ_lt_succ h
      simp only [quality_generate_batch, List.getElem?_cons_succ]
      exact ih j _ hj

/-! ## C9 -/

/-- C9 (confirmed): for every `n`, each of the three batch entry points
returns a list of exactly `n` records, and the `i`-th element of the list is
the record generated at the `i`-th iteration (insertion order equals
generation order; for the sensor batch, with the equipment state threaded
through the first `i` iterations). -/
theorem C9_batch_size_and_order (cfg : SensorConfig) (eqs : List Equipment)
    (tbl : List (String × TrendState)) (tape : ℕ → SensorStep)
    (pcfg : ProductionConfig) (refs : ℕ → EquipmentLineRef)
    (lines : List ProductionLine) (products : List Product)
    (ops : List Operator) (ptape : ℕ → ProdStep)
    (defect_types : List String) (inspectors : List Inspector)
    (tests : List QualityTest) (qtape : ℕ → QualityStep) (n : ℕ) :
    (sensor_generate_batch cfg eqs n tbl tape).length = n ∧
    (production_generate_batch pcfg eqs refs lines products ops n ptape).length = n ∧
    (quality_generate_batch defect_types eqs products inspectors tests n qtape).length = n ∧
    (∀ i, i < n →
      (sensor_generate_batch cfg eqs n tbl tape)[i]? =
        some (sensor_record_at cfg eqs tbl tape i)) ∧
    (∀ i, i < n →
      (production_generate_batch pcfg eqs refs lines products ops n ptape)[i]? =
        some (gen_production_one pcfg eqs refs lines products ops (ptape i))) ∧
    (∀ i, i < n →
      (quality_generate_batch defect_types eqs products inspectors tests n qtape)[i]? =
        some (gen_quality_one defect_types eqs products inspectors tests (qtape i))) :=
  ⟨sensor_generate_batch_length cfg eqs n tbl tape,
    production_generate_batch_length pcfg eqs refs lines products ops n ptape,
    quality_generate_batch_length defect_types eqs products inspectors tests n qtape,
    fun i hi => sensor_generate_batch_get cfg eqs n i tbl tape hi,
    fun i hi => production_generate_batch_get pcfg eqs refs lines products ops n i ptape hi,
    fun i hi => quality_generate_batch_get defect_types eqs products inspectors tests n i qtape hi⟩

/-- Witness for C9 at batch size 2, second element. -/
theorem C9_batch_size_and_order_witness :
    (1 < 2) ∧
    (sensor_generate_batch cfgZero [eqEX] 2
        (initialize_equipment_state [eqEX] initDays5 0) stape0).length = 2 ∧
    (production_generate_batch prodCfg0 [eqEX] refs0 lines0 products0 ops0 2 ptape0).length = 2 ∧
    (quality_generate_batch defects0 [eqEX] products0 inspectors0 [testCex] 2 qtape0).length = 2 ∧
    (sensor_generate_batch cfgZero [eqEX] 2
        (initialize_equipment_state [eqEX] initDays5 0) stape0)[1]? =
      some (sensor_record_at cfgZero [eqEX]
        (initialize_equipment_state [eqEX] initDays5 0) stape0 1) ∧
    (production_generate_batch prodCfg0 [eqEX] refs0 lines0 products0 ops0 2 ptape0)[1]? =
      some (gen_production_one prodCfg0 [eqEX] refs0 lines0 products0 ops0 (ptape0 1)) ∧
    (quality_generate_batch defects0 [eqEX] products0 inspectors0 [testCex] 2 qtape0)[1]? =
      some (gen_quality_one defects0 [eqEX] products0 inspectors0 [testCex] (qtape0 1)) := by
  have h := C9_batch_size_and_order cfgZero [eqEX]
    (initialize_equipment_state [eqEX] initDays5 0) stape0 prodCfg0 refs0
    lines0 products0 ops0 ptape0 defects0 inspectors0 [testCex] qtape0 2
  exact ⟨by norm_num, h.1, h.2.1, h.2.2.1,
    h.2.2.2.1 1 (by norm_num), h.2.2.2.2.1 1 (by norm_num),
    h.2.2.2.2.2 1 (by norm_num)⟩

end StreamingDemo
